import Mathlib

/-! KWin DRM backend: GBM swap chain and damage tracking

A shallow embedding of `GbmSurface` (src/backends/drm/gbm_surface.cpp) together with
the damage journal it drives, of the direct scanout inhibition counter of
`AbstractOutput` (src/abstract_output.cpp), of `ShadowBuffer`
(src/backends/drm/shadowbuffer.cpp), of the frame functions of `EglHwcomposerBackend`
(src/backends/hwcomposer/egl_hwcomposer_backend.cpp), of the X11 coordinate mapping
(src/x11utils.cpp) and of the grab and animation helpers of `ScriptedEffect`
(src/scripting/scriptedeffect.cpp).  C++ member functions become pure functions on an
explicit object state; every answer of the EGL / GBM driver is an explicit input,
and every call made to the driver is recorded in the list of calls a function returns.

Shared-pointer destructors (a `GbmBuffer` releasing itself when its last owner
drops it) live in gbm_buffer.cpp and are not part of the embedded functions:
releases are the explicit `releaseBuffer` calls.
-/

namespace KWin

/-! ## Regions -/

/-- A screen region (`QRegion`): a finite set of integer pixel positions.
The operator `|=` of `QRegion` is set union, the default region is empty. -/
abbrev Region := Finset (Int × Int)

/-! ## Damage journal -/

/-- Modelled from the spec: the class `DamageJournal` is used by gbm_surface.cpp and
egl_hwcomposer_backend.cpp but its definition is not among the source files.
It is "an ordered history of per-frame damage regions, bounded in depth":
`log` holds the retained regions, newest first, and `capacity` is the configured
history depth. -/
structure DamageJournal where
  log : List Region
  capacity : Nat
deriving DecidableEq

namespace DamageJournal

/-- Modelled from the spec: the number of entries the journal currently retains
("the journal's retained depth"). -/
def depth (j : DamageJournal) : Nat := j.log.length

/-- Modelled from the spec: `add(region)` "appends region as the newest entry; may evict
the oldest entry once the configured history depth is exceeded".  The new region always
becomes the newest entry; of the older entries only the `capacity - 1` newest stay. -/
def add (j : DamageJournal) (region : Region) : DamageJournal :=
  { j with log := region :: j.log.take (j.capacity - 1) }

/-- Modelled from the spec: `accumulate(age, fallbackRegion)`: "if age == 0 or age exceeds
the journal's retained depth, return fallbackRegion. Otherwise return the union of the
last age recorded regions (newest to the age-th most recent), inclusive"; a negative
age "is treated as unknown", giving the fallback as well.  The union is accumulated
into an initially empty region, entry by entry, starting from the newest. -/
def accumulate (j : DamageJournal) (bufferAge : Int) (fallback : Region) : Region :=
  if bufferAge ≤ 0 ∨ (j.depth : Int) < bufferAge then
    fallback
  else
    (j.log.take bufferAge.toNat).foldl (fun region entry => region ∪ entry) ∅

end DamageJournal

/-! ## Buffers, backend and driver -/

/-- A `GbmBuffer` object: `ptr` is the address of the object (what the raw pointers in
`m_lockedBuffers` compare), `bo` the `gbm_bo` handle returned by `getBo()`. -/
structure GbmBuffer where
  ptr : Nat
  bo : Nat
deriving DecidableEq

/-- A `DrmGbmBuffer`: a `GbmBuffer` that also carries a DRM framebuffer id
(`bufferId()`, 0 when no framebuffer could be created). -/
structure DrmGbmBuffer extends GbmBuffer where
  bufferId : Nat
deriving DecidableEq

/-- The part of `EglGbmBackend` the surface consults. -/
structure EglGbmBackend where
  supportsBufferAge : Bool
deriving DecidableEq

/-- Calls issued to the EGL / GBM driver, in program order.  The handle arguments are
the surface handles (`none` is a null / `EGL_NO_SURFACE` handle). -/
inductive DriverCall where
  | eglSwapBuffers (eglSurface : Option Nat)
  | gbm_surface_lock_front_buffer (surface : Option Nat)
  | eglQuerySurfaceBufferAge (eglSurface : Option Nat)
  | gbm_surface_release_buffer (surface : Option Nat) (bo : Nat)
  | eglDestroySurface (eglSurface : Nat)
  | gbm_surface_destroy (surface : Nat)
  | gbm_surface_create (width height : Int) (format flags : Nat)
  | gbm_surface_create_with_modifiers (width height : Int) (format : Nat)
      (modifiers : Option (List Nat)) (count : Nat)
  | eglCreatePlatformWindowSurfaceEXT (config surface : Nat)
  | eglMakeCurrent (draw read : Option Nat)
  | glDrawBuffer (buffer : Nat)
deriving DecidableEq

/-- What the driver and the allocator answer during one swap call:
* `eglSwapBuffers`: whether `eglSwapBuffers` returned `EGL_TRUE`;
* `lockFrontBuffer`: the `gbm_bo` returned by `gbm_surface_lock_front_buffer`
  (`none` is a null pointer);
* `bufferPtr`: the address of the buffer object made by `QSharedPointer::create`;
* `bufferId`: the framebuffer id of a newly made `DrmGbmBuffer`;
* `bufferAge`: the value `eglQuerySurface(EGL_BUFFER_AGE_EXT)` writes to its out-parameter. -/
structure SwapDriver where
  eglSwapBuffers : Bool
  lockFrontBuffer : Option Nat
  bufferPtr : Nat
  bufferId : Nat
  bufferAge : Int
deriving DecidableEq

/-! ## The surface -/

/-- The data members of `GbmSurface` (the framebuffer object `m_fbo` is left out).
`m_surface` is the `gbm_surface*` (`none` is null), `m_eglSurface` the `EGLSurface`
(`none` is `EGL_NO_SURFACE`). -/
structure GbmSurface where
  m_surface : Option Nat
  m_eglBackend : EglGbmBackend
  m_eglSurface : Option Nat
  m_size : Int × Int
  m_format : Nat
  m_modifiers : List Nat
  m_bufferAge : Int
  m_damageJournal : DamageJournal
  m_currentBuffer : Option GbmBuffer
  m_currentDrmBuffer : Option DrmGbmBuffer
  m_lockedBuffers : List GbmBuffer
deriving DecidableEq

/-- The result of a member function: the returned value, the surface afterwards and
the driver calls made, in order. -/
structure Outcome (α : Type) where
  ret : α
  surface : GbmSurface
  calls : List DriverCall

namespace GbmSurface

/-- The state both constructors leave behind: `surface` is the result of
`gbm_surface_create` / `gbm_surface_create_with_modifiers`, `eglSurface` the result of
`eglCreatePlatformWindowSurfaceEXT`, which is only called when `surface` is not null.
The remaining members are default-initialised; `journal` is the default-constructed
damage journal. -/
def construct (backend : EglGbmBackend) (size : Int × Int) (format : Nat)
    (modifiers : List Nat) (surface eglSurface : Option Nat) (journal : DamageJournal) :
    GbmSurface :=
  { m_surface := surface
    m_eglBackend := backend
    m_eglSurface := match surface with
      | none => none
      | some _ => eglSurface
    m_size := size
    m_format := format
    m_modifiers := modifiers
    m_bufferAge := 0
    m_damageJournal := journal
    m_currentBuffer := none
    m_currentDrmBuffer := none
    m_lockedBuffers := [] }

/-- `GbmSurface::swapBuffersForDrm`. -/
def swapBuffersForDrm (s : GbmSurface) (dirty : Region) (d : SwapDriver) :
    Outcome (Option DrmGbmBuffer) :=
  let c1 := [DriverCall.eglSwapBuffers s.m_eglSurface]
  if d.eglSwapBuffers != true then
    ⟨none, s, c1⟩
  else
    let c2 := c1 ++ [DriverCall.gbm_surface_lock_front_buffer s.m_surface]
    match d.lockFrontBuffer with
    | none => ⟨none, s, c2⟩
    | some bo =>
      let buffer : DrmGbmBuffer := { ptr := d.bufferPtr, bo := bo, bufferId := d.bufferId }
      let s1 := { s with m_currentBuffer := some buffer.toGbmBuffer }
      let s2 := { s1 with m_lockedBuffers := s1.m_lockedBuffers ++ [buffer.toGbmBuffer] }
      if buffer.bufferId == 0 then
        ⟨none, s2, c2⟩
      else
        let s3 := { s2 with m_currentDrmBuffer := some buffer }
        if s3.m_eglBackend.supportsBufferAge then
          let s4 := { s3 with m_bufferAge := d.bufferAge }
          let s5 := { s4 with m_damageJournal := s4.m_damageJournal.add dirty }
          ⟨some buffer, s5, c2 ++ [DriverCall.eglQuerySurfaceBufferAge s.m_eglSurface]⟩
        else
          ⟨some buffer, s3, c2⟩

/-- `GbmSurface::swapBuffers`. -/
def swapBuffers (s : GbmSurface) (dirty : Region) (d : SwapDriver) :
    Outcome (Option GbmBuffer) :=
  let c1 := [DriverCall.eglSwapBuffers s.m_eglSurface]
  if d.eglSwapBuffers != true then
    ⟨none, s, c1⟩
  else
    let c2 := c1 ++ [DriverCall.gbm_surface_lock_front_buffer s.m_surface]
    match d.lockFrontBuffer with
    | none => ⟨none, s, c2⟩
    | some bo =>
      let buffer : GbmBuffer := { ptr := d.bufferPtr, bo := bo }
      let s1 := { s with m_currentBuffer := some buffer }
      let s2 := { s1 with m_lockedBuffers := s1.m_lockedBuffers ++ [buffer] }
      if s2.m_eglBackend.supportsBufferAge then
        let s3 := { s2 with m_bufferAge := d.bufferAge }
        let s4 := { s3 with m_damageJournal := s3.m_damageJournal.add dirty }
        ⟨s4.m_currentBuffer, s4, c2 ++ [DriverCall.eglQuerySurfaceBufferAge s.m_eglSurface]⟩
      else
        ⟨s2.m_currentBuffer, s2, c2⟩

/-- `GbmSurface::releaseBuffer`: the buffer's `gbm_bo` is handed back to the allocator and
`QVector::removeOne` drops the first occurrence of the buffer, if there is one. -/
def releaseBuffer (s : GbmSurface) (buffer : GbmBuffer) : Outcome Unit :=
  ⟨(), { s with m_lockedBuffers := s.m_lockedBuffers.erase buffer },
    [DriverCall.gbm_surface_release_buffer s.m_surface buffer.bo]⟩

/-- `GbmSurface::currentBuffer`. -/
def currentBuffer (s : GbmSurface) : Option GbmBuffer := s.m_currentBuffer

/-- `GbmSurface::currentDrmBuffer`. -/
def currentDrmBuffer (s : GbmSurface) : Option DrmGbmBuffer := s.m_currentDrmBuffer

/-- `GbmSurface::bufferAge`. -/
def bufferAge (s : GbmSurface) : Int := s.m_bufferAge

/-- `GbmSurface::isValid`. -/
def isValid (s : GbmSurface) : Bool := s.m_surface != none && s.m_eglSurface != none

/-- `GbmSurface::repaintRegion`.  `infiniteRegion` is the value of `infiniteRegion()`
(declared in kwineffects.h, not among the source files). -/
def repaintRegion (infiniteRegion : Region) (s : GbmSurface) : Region :=
  if s.m_eglBackend.supportsBufferAge then
    s.m_damageJournal.accumulate s.m_bufferAge infiniteRegion
  else
    infiniteRegion

end GbmSurface

/-! ## Call sequences -/

/-- One call made on a surface by its users. -/
inductive Call where
  | swapBuffers (dirty : Region) (d : SwapDriver)
  | swapBuffersForDrm (dirty : Region) (d : SwapDriver)
  | releaseBuffer (buffer : GbmBuffer)

/-- The buffer whose front-buffer lock the driver granted during a swap call, if any:
the swap succeeded and `gbm_surface_lock_front_buffer` returned a `gbm_bo`. -/
def SwapDriver.acquired (d : SwapDriver) : Option GbmBuffer :=
  if d.eglSwapBuffers = true then
    d.lockFrontBuffer.map (fun bo => { ptr := d.bufferPtr, bo := bo })
  else
    none

/-- A surface together with the history seen from outside:
* `returned`: the buffers some swap call returned and that were not released since;
* `acquired`: the buffers whose front-buffer lock the driver granted during some swap
  call (returned to the caller or not) and that were not released since. -/
structure Run where
  surface : GbmSurface
  returned : List GbmBuffer
  acquired : List GbmBuffer

/-- Perform one call, keeping the outside history up to date. -/
def Run.step (r : Run) : Call → Run
  | .swapBuffers dirty d =>
    let o := r.surface.swapBuffers dirty d
    { surface := o.surface
      returned := o.ret.toList ++ r.returned
      acquired := d.acquired.toList ++ r.acquired }
  | .swapBuffersForDrm dirty d =>
    let o := r.surface.swapBuffersForDrm dirty d
    { surface := o.surface
      returned := (o.ret.map DrmGbmBuffer.toGbmBuffer).toList ++ r.returned
      acquired := d.acquired.toList ++ r.acquired }
  | .releaseBuffer buffer =>
    { surface := (r.surface.releaseBuffer buffer).surface
      returned := r.returned.erase buffer
      acquired := r.acquired.erase buffer }

/-- Whether a call is a `swapBuffersForDrm` in which the driver granted a front-buffer
lock for a buffer that got no framebuffer (framebuffer id 0). -/
def Call.locksWithoutFramebuffer : Call → Bool
  | .swapBuffersForDrm _ d => d.acquired.isSome && d.bufferId == 0
  | _ => false

/-- Perform a sequence of calls on a surface, starting with an empty history. -/
def run (s : GbmSurface) (calls : List Call) : Run :=
  calls.foldl Run.step { surface := s, returned := [], acquired := [] }

/-! ## Concrete inputs used in the examples below -/

/-- A freshly constructed, valid surface on a backend with buffer age support. -/
def freshSurface : GbmSurface :=
  GbmSurface.construct ⟨true⟩ (1920, 1080) 875713112 [] (some 1) (some 2) ⟨[], 10⟩

/-- A freshly constructed, valid surface on a backend without buffer age support. -/
def freshSurfaceNoAge : GbmSurface :=
  GbmSurface.construct ⟨false⟩ (1920, 1080) 875713112 [] (some 1) (some 2) ⟨[], 10⟩

/-- The driver swaps, locks `gbm_bo` 7 for a buffer object at address 100 with
framebuffer id 42, and reports buffer age 1. -/
def driverOk : SwapDriver :=
  { eglSwapBuffers := true, lockFrontBuffer := some 7, bufferPtr := 100, bufferId := 42,
    bufferAge := 1 }

/-- The driver refuses to swap. -/
def driverSwapFails : SwapDriver := { driverOk with eglSwapBuffers := false }

/-- The driver swaps but has no front buffer to lock. -/
def driverLockFails : SwapDriver := { driverOk with lockFrontBuffer := none }

/-- The driver swaps and locks a buffer, but no framebuffer could be made for it. -/
def driverNoFramebuffer : SwapDriver := { driverOk with bufferId := 0 }

/-- A one-pixel region. -/
def pixel (x y : Int) : Region := {(x, y)}

/-! ## Destruction of a surface -/

/-- Modelled from the spec: `GbmBuffer::releaseBuffer`, which the destructor of the surface
calls on every locked buffer, is defined in gbm_buffer.cpp, not among the source files.
Releasing a buffer "returns a previously locked buffer to the allocator and removes it
from the locked set": the buffer hands itself back through `GbmSurface::releaseBuffer`
of the surface it was locked from. -/
def GbmBuffer.releaseBuffer (buffer : GbmBuffer) (s : GbmSurface) : Outcome Unit :=
  s.releaseBuffer buffer

/-- `GbmSurface::~GbmSurface`: every buffer of a copy of `m_lockedBuffers` is released,
then the EGL surface is destroyed unless it is `EGL_NO_SURFACE`, then the GBM surface
unless it is null. -/
def GbmSurface.destructor (s : GbmSurface) : Outcome Unit :=
  let buffers := s.m_lockedBuffers
  let released : Outcome Unit := buffers.foldl
    (fun o buffer =>
      let r := buffer.releaseBuffer o.surface
      ⟨(), r.surface, o.calls ++ r.calls⟩)
    ⟨(), s, []⟩
  let c1 := match released.surface.m_eglSurface with
    | some eglSurface => released.calls ++ [DriverCall.eglDestroySurface eglSurface]
    | none => released.calls
  let c2 := match released.surface.m_surface with
    | some surface => c1 ++ [DriverCall.gbm_surface_destroy surface]
    | none => c1
  ⟨(), released.surface, c2⟩

/-- Whether a call is a swap call during which the driver grants no front buffer
(`eglSwapBuffers` fails or `gbm_surface_lock_front_buffer` returns null), or a
`releaseBuffer` call. -/
def Call.isFailedSwapOrRelease : Call → Bool
  | .swapBuffers _ d => d.acquired.isNone
  | .swapBuffersForDrm _ d => d.acquired.isNone
  | .releaseBuffer _ => true

/-! ## Direct scanout inhibition (src/abstract_output.cpp) -/

/-- Modelled from the spec: the member `m_directScanoutCount` of `AbstractOutput` is
declared in abstract_output.h, not among the source files.  It is the "Direct-Scanout
Inhibition Counter", an integer count that `inhibit()` increments and `uninhibit()`
decrements, and that a "negative count" can be spoken of: a signed integer.  Arithmetic
is on mathematical integers (the counter stays far from the limits of `int`). -/
structure AbstractOutput where
  m_directScanoutCount : Int
deriving DecidableEq

namespace AbstractOutput

/-- Modelled from the spec: a fresh output, "counter 0" (the initial value is given in
the absent header). -/
def fresh : AbstractOutput := { m_directScanoutCount := 0 }

/-- `AbstractOutput::inhibitDirectScanout`. -/
def inhibitDirectScanout (o : AbstractOutput) : AbstractOutput :=
  { o with m_directScanoutCount := o.m_directScanoutCount + 1 }

/-- `AbstractOutput::uninhibitDirectScanout`. -/
def uninhibitDirectScanout (o : AbstractOutput) : AbstractOutput :=
  { o with m_directScanoutCount := o.m_directScanoutCount - 1 }

/-- `AbstractOutput::directScanoutInhibited`: the counter converted to `bool`, that is
whether it is different from 0. -/
def directScanoutInhibited (o : AbstractOutput) : Bool :=
  o.m_directScanoutCount != 0

end AbstractOutput

/-- A call made by a consumer of the scanout gate. -/
inductive ScanoutCall where
  | inhibit
  | uninhibit
deriving DecidableEq

/-- Perform one scanout call. -/
def ScanoutCall.apply (o : AbstractOutput) : ScanoutCall → AbstractOutput
  | .inhibit => o.inhibitDirectScanout
  | .uninhibit => o.uninhibitDirectScanout

/-- Perform a sequence of scanout calls on a fresh output. -/
def runScanout (calls : List ScanoutCall) : AbstractOutput :=
  calls.foldl ScanoutCall.apply AbstractOutput.fresh

/-! ## Shadow buffer (src/backends/drm/shadowbuffer.cpp) -/

/-- The members of `GbmFormat` that shadowbuffer.cpp reads: the red, green and blue
channel sizes in bits (`EGLint`). -/
structure GbmFormat where
  redSize : Int
  greenSize : Int
  blueSize : Int
deriving DecidableEq

/-- The sized internal formats `ShadowBuffer::internalFormat` chooses from. -/
inductive GLInternalFormat where
  | GL_RGBA8
  | GL_RGB10_A2
  | GL_RGBA12
  | GL_RGBA16
deriving DecidableEq

/-- The colour bits per channel of a sized internal format. -/
def GLInternalFormat.channelDepth : GLInternalFormat → Int
  | .GL_RGBA8 => 8
  | .GL_RGB10_A2 => 10
  | .GL_RGBA12 => 12
  | .GL_RGBA16 => 16

/-- `DrmOutput::Transform`. -/
inductive Transform where
  | Normal
  | Rotated90
  | Rotated180
  | Rotated270
  | Flipped
  | Flipped90
  | Flipped180
  | Flipped270
deriving DecidableEq

/-- A call that changes a `QMatrix4x4` in place (both multiply from the right). -/
inductive MatrixOp where
  | rotate (angle x y z : Int)
  | scale (x y : Int)
deriving DecidableEq

/-- A `QMatrix4x4`, kept as the calls applied, in order, to a default-constructed
(identity) matrix; the empty list is the identity. -/
abbrev QMatrix4x4 := List MatrixOp

/-- A `GLTexture`: internal format, size and filter. -/
structure GLTexture where
  internalFormat : GLInternalFormat
  size : Int × Int
  filter : Nat
deriving DecidableEq

/-- A `GLVertexBuffer` after `setData(vertexCount, dim, vertices, texCoords)`. -/
structure GLVertexBuffer where
  vertexCount : Nat
  dim : Nat
  vertices : List Rat
  texCoords : List Rat
deriving DecidableEq

/-- The static array `vertices`: six vertices, two coordinates each. -/
def vertices : List Rat :=
  [-1, 1,
   -1, -1,
   1, -1,

   -1, 1,
   1, -1,
   1, 1]

/-- The static array `texCoords`: six texture coordinates, two components each. -/
def texCoords : List Rat :=
  [0, 1,
   0, 0,
   1, 0,

   0, 1,
   1, 0,
   1, 1]

/-- `GL_NEAREST`. -/
def GL_NEAREST : Nat := 0x2600

/-- The members of `ShadowBuffer`.  Of the render target only `valid()` is kept
(`m_renderTarget` itself is never null after construction); `m_vbo` is `none` while the
scoped pointer is null. -/
structure ShadowBuffer where
  m_texture : GLTexture
  m_renderTargetValid : Bool
  m_vbo : Option GLVertexBuffer
  m_size : Int × Int
deriving DecidableEq

namespace ShadowBuffer

/-- `ShadowBuffer::internalFormat`. -/
def internalFormat (format : GbmFormat) : GLInternalFormat :=
  if format.redSize ≤ 8 ∧ format.greenSize ≤ 8 ∧ format.blueSize ≤ 8 then
    .GL_RGBA8
  else if format.redSize ≤ 10 ∧ format.greenSize ≤ 10 ∧ format.blueSize ≤ 10 then
    .GL_RGB10_A2
  else if format.redSize ≤ 12 ∧ format.greenSize ≤ 12 ∧ format.blueSize ≤ 12 then
    .GL_RGBA12
  else
    .GL_RGBA16

/-- `ShadowBuffer::ShadowBuffer`.  `renderTargetValid` is what `m_renderTarget->valid()`
answers for the render target made from the texture. -/
def construct (size : Int × Int) (format : GbmFormat) (renderTargetValid : Bool) :
    ShadowBuffer :=
  let m_texture : GLTexture :=
    { internalFormat := internalFormat format, size := size, filter := GL_NEAREST }
  if !renderTargetValid then
    { m_texture := m_texture, m_renderTargetValid := renderTargetValid, m_vbo := none,
      m_size := size }
  else
    { m_texture := m_texture, m_renderTargetValid := renderTargetValid,
      m_vbo := some { vertexCount := 6, dim := 2, vertices := vertices,
                      texCoords := texCoords },
      m_size := size }

/-- `ShadowBuffer::isComplete`. -/
def isComplete (s : ShadowBuffer) : Bool :=
  s.m_renderTargetValid && s.m_vbo.isSome

/-- The matrix `ShadowBuffer::render` builds for the transform of the output and passes
to the shader as `ModelViewProjectionMatrix`. -/
def mvpMatrix (transform : Transform) : QMatrix4x4 :=
  let mvpMatrix : QMatrix4x4 := []
  let mvpMatrix := match transform with
    | .Normal | .Flipped => mvpMatrix
    | .Rotated90 | .Flipped90 => mvpMatrix ++ [MatrixOp.rotate 90 0 0 1]
    | .Rotated180 | .Flipped180 => mvpMatrix ++ [MatrixOp.rotate 180 0 0 1]
    | .Rotated270 | .Flipped270 => mvpMatrix ++ [MatrixOp.rotate 270 0 0 1]
  match transform with
    | .Flipped | .Flipped90 | .Flipped180 | .Flipped270 => mvpMatrix ++ [MatrixOp.scale (-1) 1]
    | _ => mvpMatrix

end ShadowBuffer

/-! ## What the claims say about the shadow buffer matrix -/

/-- The rotation component of a transform, in degrees. -/
def Transform.rotationDegrees : Transform → Int
  | .Normal | .Flipped => 0
  | .Rotated90 | .Flipped90 => 90
  | .Rotated180 | .Flipped180 => 180
  | .Rotated270 | .Flipped270 => 270

/-- Whether a transform is one of the four flipped variants. -/
def Transform.isFlipped : Transform → Bool
  | .Flipped | .Flipped90 | .Flipped180 | .Flipped270 => true
  | _ => false

/-- The rotation about the z axis by a number of degrees; by 0 degrees it is the identity. -/
def zRotation (degrees : Int) : QMatrix4x4 :=
  if degrees = 0 then [] else [MatrixOp.rotate degrees 0 0 1]

/-- The flip of the x axis, `scale(-1, 1)`. -/
def xFlip : QMatrix4x4 := [MatrixOp.scale (-1) 1]

/-- The composition of two matrices: first `a`, then `b` multiplied from the right. -/
def QMatrix4x4.compose (a b : QMatrix4x4) : QMatrix4x4 := a ++ b

/-! ## Construction of a surface, binding the context -/

/-- What the driver answers while a surface is constructed: `gbmSurface` is the result of
`gbm_surface_create` / `gbm_surface_create_with_modifiers` (`none` is null), `eglSurface`
the result of `eglCreatePlatformWindowSurfaceEXT` (`none` is `EGL_NO_SURFACE`). -/
structure CreateDriver where
  gbmSurface : Option Nat
  eglSurface : Option Nat
deriving DecidableEq

/-- What the driver and the platform answer during `makeContextCurrent`: whether
`eglMakeCurrent` returned something other than `EGL_FALSE`, and
`GLPlatform::instance()->isGLES()`. -/
structure MakeCurrentDriver where
  eglMakeCurrent : Bool
  isGLES : Bool
deriving DecidableEq

/-- `GL_BACK`. -/
def GL_BACK : Nat := 0x0405

namespace GbmSurface

/-- `GbmSurface::GbmSurface(gpu, size, format, flags, config)`: the members set up as in
`construct` (no modifiers), with the calls made to the driver. -/
def constructWithFlags (backend : EglGbmBackend) (size : Int × Int) (format flags : Nat)
    (config : Nat) (d : CreateDriver) (journal : DamageJournal) : Outcome Unit :=
  let c1 := [DriverCall.gbm_surface_create size.1 size.2 format flags]
  let s := construct backend size format [] d.gbmSurface d.eglSurface journal
  match d.gbmSurface with
  | none => ⟨(), s, c1⟩
  | some surface => ⟨(), s, c1 ++ [DriverCall.eglCreatePlatformWindowSurfaceEXT config surface]⟩

/-- `GbmSurface::GbmSurface(gpu, size, format, modifiers, config)`: the members set up as
in `construct`, with the calls made to the driver; an empty modifier list is passed to
the allocator as a null pointer. -/
def constructWithModifiers (backend : EglGbmBackend) (size : Int × Int) (format : Nat)
    (modifiers : List Nat) (config : Nat) (d : CreateDriver) (journal : DamageJournal) :
    Outcome Unit :=
  let c1 := [DriverCall.gbm_surface_create_with_modifiers size.1 size.2 format
    (if modifiers.isEmpty then none else some modifiers) modifiers.length]
  let s := construct backend size format modifiers d.gbmSurface d.eglSurface journal
  match d.gbmSurface with
  | none => ⟨(), s, c1⟩
  | some surface => ⟨(), s, c1 ++ [DriverCall.eglCreatePlatformWindowSurfaceEXT config surface]⟩

/-- `GbmSurface::size`. -/
def size (s : GbmSurface) : Int × Int := s.m_size

/-- `GbmSurface::format`. -/
def format (s : GbmSurface) : Nat := s.m_format

/-- `GbmSurface::modifiers`. -/
def modifiers (s : GbmSurface) : List Nat := s.m_modifiers

/-- `GbmSurface::makeContextCurrent`. -/
def makeContextCurrent (s : GbmSurface) (d : MakeCurrentDriver) : Outcome Bool :=
  let c1 := [DriverCall.eglMakeCurrent s.m_eglSurface s.m_eglSurface]
  if d.eglMakeCurrent == false then
    ⟨false, s, c1⟩
  else if !d.isGLES then
    ⟨true, s, c1 ++ [DriverCall.glDrawBuffer GL_BACK]⟩
  else
    ⟨true, s, c1⟩

end GbmSurface

/-! ## Hwcomposer backend (src/backends/hwcomposer/egl_hwcomposer_backend.cpp) -/

/-- The member of `EglHwcomposerBackend` that `beginFrame` and `endFrame` use. -/
structure EglHwcomposerBackend where
  m_damageJournal : DamageJournal
deriving DecidableEq

namespace EglHwcomposerBackend

/-- `EglHwcomposerBackend::beginFrame`.  `makeContextCurrent()` is called first; its
result is discarded and it does not touch the journal.  `screensGeometry` is the value
of `screens()->geometry()`. -/
def beginFrame (b : EglHwcomposerBackend) (screensGeometry : Region) : Region :=
  b.m_damageJournal.accumulate 0 screensGeometry

/-- `EglHwcomposerBackend::endFrame`.  `eglSwapBuffers` is whether the driver swap
succeeded; the function does not look at it, nor at `damagedRegion`. -/
def endFrame (b : EglHwcomposerBackend) (renderedRegion _damagedRegion : Region)
    (_eglSwapBuffers : Bool) : EglHwcomposerBackend :=
  { b with m_damageJournal := b.m_damageJournal.add renderedRegion }

end EglHwcomposerBackend

/-- One `endFrame` call: rendered region, damaged region, whether the swap succeeded. -/
structure Frame where
  renderedRegion : Region
  damagedRegion : Region
  eglSwapBuffers : Bool

/-- Perform a sequence of `endFrame` calls. -/
def EglHwcomposerBackend.endFrames (b : EglHwcomposerBackend) (frames : List Frame) :
    EglHwcomposerBackend :=
  frames.foldl (fun b f => b.endFrame f.renderedRegion f.damagedRegion f.eglSwapBuffers) b

/-! ## The quad of the shadow buffer -/

/-- The `i`-th vertex of a vertex buffer holding two coordinates per vertex. -/
def GLVertexBuffer.vertex (vbo : GLVertexBuffer) (i : Nat) : Rat × Rat :=
  (vbo.vertices.getD (vbo.dim * i) 0, vbo.vertices.getD (vbo.dim * i + 1) 0)

/-- The `i`-th texture coordinate of a vertex buffer. -/
def GLVertexBuffer.texCoord (vbo : GLVertexBuffer) (i : Nat) : Rat × Rat :=
  (vbo.texCoords.getD (vbo.dim * i) 0, vbo.texCoords.getD (vbo.dim * i + 1) 0)

/-- The vertex buffer the constructor of `ShadowBuffer` fills:
`setData(6, 2, vertices, texCoords)`. -/
def quad : GLVertexBuffer :=
  { vertexCount := 6, dim := 2, vertices := vertices, texCoords := texCoords }

/-- Twice the signed area of the triangle `a`, `b`, `p` (the edge function of `a`, `b`
at `p`). -/
def edgeFunction (a b p : Rat × Rat) : Rat :=
  (b.1 - a.1) * (p.2 - a.2) - (b.2 - a.2) * (p.1 - a.1)

/-- Whether `p` lies in the closed triangle `a`, `b`, `c`: it is on the same side of all
three edges. -/
def inTriangle (a b c p : Rat × Rat) : Prop :=
  (0 ≤ edgeFunction a b p ∧ 0 ≤ edgeFunction b c p ∧ 0 ≤ edgeFunction c a p) ∨
  (edgeFunction a b p ≤ 0 ∧ edgeFunction b c p ≤ 0 ∧ edgeFunction c a p ≤ 0)

instance (a b c p : Rat × Rat) : Decidable (inTriangle a b c p) := by
  unfold inTriangle
  infer_instance

/-! ## Mapping between logical and native X11 coordinates (src/x11utils.cpp) -/

/-- The smallest value of a C++ `int`. -/
def INT_MIN : Int := -2147483648

/-- The largest value of a C++ `int`. -/
def INT_MAX : Int := 2147483647

/-- Truncation toward zero, as done by the conversion of a floating point value to an
integer type. -/
def truncate (q : Rat) : Int :=
  if 0 ≤ q then ⌊q⌋ else ⌈q⌉

/-- The conversion `int(q)` of a `qreal`: the truncated value when `int` can represent
it; otherwise the behaviour is undefined and there is no result.  The `qreal` arithmetic
feeding it is taken as exact (it is exact whenever the product of a 32-bit coordinate
and the scale is representable as `int`). -/
def toInt (q : Rat) : Option Int :=
  if INT_MIN ≤ truncate q ∧ truncate q ≤ INT_MAX then some (truncate q) else none

/-- A `QPoint`. -/
structure QPoint where
  x : Int
  y : Int
deriving DecidableEq

/-- A `QSize`. -/
structure QSize where
  width : Int
  height : Int
deriving DecidableEq

/-- A `QRect`, given by its top-left corner and its size (`QRect(topLeft, size)`,
`topLeft()`, `size()`). -/
structure QRect where
  topLeft : QPoint
  size : QSize
deriving DecidableEq

/-- `KWin::X11::mapToNative(const QPoint &)`; `x11Scale` is `kwinApp()->x11Scale()`. -/
def QPoint.mapToNative (x11Scale : Rat) (point : QPoint) : Option QPoint :=
  match toInt (point.x * x11Scale), toInt (point.y * x11Scale) with
  | some x, some y => some { x := x, y := y }
  | _, _ => none

/-- `KWin::X11::mapFromNative(const QPoint &)`. -/
def QPoint.mapFromNative (x11Scale : Rat) (point : QPoint) : Option QPoint :=
  match toInt (point.x / x11Scale), toInt (point.y / x11Scale) with
  | some x, some y => some { x := x, y := y }
  | _, _ => none

/-- `KWin::X11::mapToNative(const QSize &)`. -/
def QSize.mapToNative (x11Scale : Rat) (size : QSize) : Option QSize :=
  match toInt (size.width * x11Scale), toInt (size.height * x11Scale) with
  | some width, some height => some { width := width, height := height }
  | _, _ => none

/-- `KWin::X11::mapFromNative(const QSize &)`. -/
def QSize.mapFromNative (x11Scale : Rat) (size : QSize) : Option QSize :=
  match toInt (size.width / x11Scale), toInt (size.height / x11Scale) with
  | some width, some height => some { width := width, height := height }
  | _, _ => none

/-- `KWin::X11::mapToNative(const QRect &)`. -/
def QRect.mapToNative (x11Scale : Rat) (rect : QRect) : Option QRect :=
  match rect.topLeft.mapToNative x11Scale, rect.size.mapToNative x11Scale with
  | some topLeft, some size => some { topLeft := topLeft, size := size }
  | _, _ => none

/-- `KWin::X11::mapFromNative(const QRect &)`. -/
def QRect.mapFromNative (x11Scale : Rat) (rect : QRect) : Option QRect :=
  match rect.topLeft.mapFromNative x11Scale, rect.size.mapFromNative x11Scale with
  | some topLeft, some size => some { topLeft := topLeft, size := size }
  | _, _ => none

/-- Whether the product of a coordinate and an integer scale is representable as `int`. -/
def fitsInt (v : Int) (scale : Nat) : Prop :=
  INT_MIN ≤ v * scale ∧ v * scale ≤ INT_MAX

instance (v : Int) (scale : Nat) : Decidable (fitsInt v scale) := by
  unfold fitsInt
  infer_instance

/-! ## Window grabs of a scripted effect (src/scripting/scriptedeffect.cpp) -/

/-- The data of an `EffectWindow` that grabbing uses: for every data role the grabber
stored there as a `void *` (`none` when the role holds no data or a null pointer). -/
structure EffectWindow where
  data : Nat → Option Nat

/-- `EffectWindow::setData`. -/
def EffectWindow.setData (w : EffectWindow) (role : Nat) (value : Option Nat) :
    EffectWindow :=
  { data := fun r => if r = role then value else w.data r }

namespace ScriptedEffect

/-- `ScriptedEffect::isGrabbed`; `effect` is the address of the scripted effect (`this`). -/
def isGrabbed (effect : Nat) (w : EffectWindow) (grabRole : Nat) : Bool :=
  match w.data grabRole with
  | some e => e != effect
  | none => false

/-- `ScriptedEffect::grab`: the returned value and the window afterwards. -/
def grab (effect : Nat) (w : EffectWindow) (grabRole : Nat) (force : Bool) :
    Bool × EffectWindow :=
  let grabber := w.data grabRole
  if grabber = some effect then
    (true, w)
  else if grabber ≠ none ∧ grabber ≠ some effect ∧ !force then
    (false, w)
  else
    (true, w.setData grabRole (some effect))

/-- `ScriptedEffect::ungrab`: the returned value and the window afterwards. -/
def ungrab (effect : Nat) (w : EffectWindow) (grabRole : Nat) : Bool × EffectWindow :=
  let grabber := w.data grabRole
  if grabber = none then
    (true, w)
  else if grabber ≠ some effect then
    (false, w)
  else
    (true, w.setData grabRole none)

end ScriptedEffect

/-! ## Animations of a scripted effect (src/scripting/scriptedeffect.cpp) -/

/-- A script value as far as it is only passed on (the properties `to` and `from`, held
in the fields `to_` and `from_`). -/
inductive JSValue where
  | undefined
  | null
  | number (n : Int)
  | object (id : Nat)
deriving DecidableEq

/-- `AnimationEffect::MetaType`, in the order of the map `metaTypes`. -/
inductive MetaType where
  | SourceAnchor
  | TargetAnchor
  | RelativeSourceX
  | RelativeSourceY
  | RelativeTargetX
  | RelativeTargetY
  | Axis
deriving DecidableEq

/-- A script object holding animation options, as seen through the properties the code
reads: `duration` is `some n` when the property is a number (`n` its `toUInt()`), `delay`,
`curve` and `type` likewise with `toInt()`, `fullScreen` and `keepAlive` are `some b`
when the property is a boolean, and `metaValues` lists, in map order, the meta
properties that are numbers. -/
structure OptionsObject where
  to_ : JSValue
  from_ : JSValue
  duration : Option Nat
  delay : Option Int
  curve : Option Int
  type : Option Int
  fullScreen : Option Bool
  keepAlive : Option Bool
  metaValues : List (MetaType × Int)
deriving DecidableEq

/-- The struct `AnimationSettings`.  `metaData` is kept as the list of
`AnimationEffect::setMetaData` calls made on it, starting from 0. -/
structure AnimationSettings where
  type : Int
  curve : Int
  from_ : JSValue
  to_ : JSValue
  delay : Int
  duration : Nat
  set : Nat
  metaData : List (MetaType × Int)
  fullScreenEffect : Bool
  keepAlive : Bool
deriving DecidableEq

namespace AnimationSettings

/-- `AnimationSettings::Type`. -/
def Type_ : Nat := 1 <<< 0

/-- `AnimationSettings::Curve`. -/
def Curve : Nat := 1 <<< 1

/-- `AnimationSettings::Delay`. -/
def Delay : Nat := 1 <<< 2

/-- `AnimationSettings::Duration`. -/
def Duration : Nat := 1 <<< 3

/-- `AnimationSettings::FullScreen`. -/
def FullScreen : Nat := 1 <<< 4

/-- `AnimationSettings::KeepAlive`. -/
def KeepAlive : Nat := 1 <<< 5

end AnimationSettings

/-- `QEasingCurve::Linear`. -/
def QEasingCurve_Linear : Int := 0

/-- `animationSettingsFromObject`; the meta data is left at 0 (no call). -/
def animationSettingsFromObject (object : OptionsObject) : AnimationSettings :=
  let set : Nat := 0
  let (duration, set) := match object.duration with
    | some n => (n, set ||| AnimationSettings.Duration)
    | none => (0, set)
  let (delay, set) := match object.delay with
    | some n => (n, set ||| AnimationSettings.Delay)
    | none => (0, set)
  let (curve, set) := match object.curve with
    | some n => (n, set ||| AnimationSettings.Curve)
    | none => (QEasingCurve_Linear, set)
  let (type, set) := match object.type with
    | some n => (n, set ||| AnimationSettings.Type_)
    | none => (-1, set)
  let (fullScreenEffect, set) := match object.fullScreen with
    | some b => (b, set ||| AnimationSettings.FullScreen)
    | none => (false, set)
  let (keepAlive, set) := match object.keepAlive with
    | some b => (b, set ||| AnimationSettings.KeepAlive)
    | none => (true, set)
  { type := type, curve := curve, from_ := object.from_, to_ := object.to_, delay := delay,
    duration := duration, set := set, metaData := [], fullScreenEffect := fullScreenEffect,
    keepAlive := keepAlive }

/-- The property `window` of the options: not an object, an object that is no
`EffectWindow`, or a window. -/
inductive WindowProperty where
  | notObject
  | invalid
  | window (w : Nat)
deriving DecidableEq

/-- The property `animations` of the options: undefined, something that is no array, or
an array; an element that is not an object is `none`. -/
inductive AnimationsProperty where
  | undefined
  | notArray
  | array (items : List (Option OptionsObject))
deriving DecidableEq

/-- The options object handed to `animate` / `set`: its properties `window` and
`animations`, and the animation options it carries itself. -/
structure AnimationOptions where
  window : WindowProperty
  object : OptionsObject
  animations : AnimationsProperty
deriving DecidableEq

/-- `ScriptedEffect::AnimationType`. -/
inductive AnimationType where
  | Animate
  | Set
deriving DecidableEq

/-- The errors `animate_helper` throws. -/
inductive AnimateError where
  | windowMissing
  | windowInvalid
  | animationsNotArray
  | typeMissing
  | durationMissing
  | noAnimations
deriving DecidableEq

/-- The message of each error. -/
def AnimateError.message : AnimateError → String
  | .windowMissing => "Window property missing in animation options"
  | .windowInvalid => "Window property references invalid window"
  | .animationsNotArray => "Animations provided but not an array"
  | .typeMissing => "Type property missing in animation options"
  | .durationMissing => "Duration property missing in animation options"
  | .noAnimations => "No animations provided"

/-- One `animate(...)` or `set(...)` call made by `animate_helper`. -/
structure StartedAnimation where
  animationType : AnimationType
  window : Nat
  setting : AnimationSettings
deriving DecidableEq

namespace ScriptedEffect

/-- The completion of a local animation `s`, read from the element `value`, from the
global settings (the part of the loop body in `animate_helper` after the checks): the
duration, curve, delay, full screen flag and keep alive flag that are not set locally
are taken from the global settings, and the meta data is read from `value`. -/
def completeFromGlobal (global : AnimationSettings) (value : OptionsObject)
    (s : AnimationSettings) : AnimationSettings :=
  let s := if s.set &&& AnimationSettings.Duration = 0 then
    { s with duration := global.duration } else s
  let s := if s.set &&& AnimationSettings.Curve = 0 then
    { s with curve := global.curve } else s
  let s := if s.set &&& AnimationSettings.Delay = 0 then
    { s with delay := global.delay } else s
  let s := if s.set &&& AnimationSettings.FullScreen = 0 then
    { s with fullScreenEffect := global.fullScreenEffect } else s
  let s := if s.set &&& AnimationSettings.KeepAlive = 0 then
    { s with keepAlive := global.keepAlive } else s
  { s with metaData := value.metaValues }

/-- The loop over the elements of `animations` in `animate_helper`: every element that is
an object is checked against the global settings `settings.at(0)`, completed from them
and appended to `settings`. -/
def collectAnimations (global : AnimationSettings) :
    List (Option OptionsObject) → List AnimationSettings →
      Except AnimateError (List AnimationSettings)
  | [], settings => .ok settings
  | none :: rest, settings => collectAnimations global rest settings
  | some value :: rest, settings =>
    if ((animationSettingsFromObject value).set ||| global.set)
        &&& AnimationSettings.Type_ = 0 then
      .error .typeMissing
    else if ((animationSettingsFromObject value).set ||| global.set)
        &&& AnimationSettings.Duration = 0 then
      .error .durationMissing
    else
      collectAnimations global rest
        (settings ++ [completeFromGlobal global value (animationSettingsFromObject value)])

/-- The end of `animate_helper`, from the check of the number of settings on: the checks
of the global settings, the emptiness check, and the `animate` / `set` calls. -/
def startAnimations (animationType : AnimationType) (window : Nat)
    (settings : List AnimationSettings) (global : AnimationSettings) :
    Except AnimateError (List StartedAnimation) :=
  let checked : Except AnimateError (List AnimationSettings) :=
    if settings.length = 1 then
      let set := global.set
      if set &&& AnimationSettings.Type_ = 0 then
        .error .typeMissing
      else if set &&& AnimationSettings.Duration = 0 then
        .error .durationMissing
      else
        .ok settings
    else if global.set &&& AnimationSettings.Type_ = 0 then
      .ok (settings.eraseIdx 0)
    else
      .ok settings
  match checked with
  | .error e => .error e
  | .ok settings =>
    if settings.isEmpty then
      .error .noAnimations
    else
      .ok (settings.map (fun setting => ⟨animationType, window, setting⟩))

/-- `ScriptedEffect::animate_helper`: the error thrown, or the `animate` / `set` calls
made, in order (the returned array holds their ids). -/
def animate_helper (object : AnimationOptions) (animationType : AnimationType) :
    Except AnimateError (List StartedAnimation) :=
  match object.window with
  | .notObject => .error .windowMissing
  | .invalid => .error .windowInvalid
  | .window window =>
    let global := animationSettingsFromObject object.object
    let settings : Except AnimateError (List AnimationSettings) :=
      match object.animations with
      | .undefined => .ok [global]
      | .notArray => .error .animationsNotArray
      | .array items => collectAnimations global items [global]
    match settings with
    | .error e => .error e
    | .ok settings => startAnimations animationType window settings global

end ScriptedEffect

/-- Whether an animation was started with a type and a duration that were set: the flags
`Type` and `Duration` are among the properties set for it. -/
def StartedAnimation.hasTypeAndDuration (a : StartedAnimation) : Bool :=
  a.setting.set &&& AnimationSettings.Type_ != 0 &&
  a.setting.set &&& AnimationSettings.Duration != 0

/-- The options `{ window: w, type: 1, animations: [ { duration: 100 } ] }` for the window
`w` at address 5: the type is given for all animations at once, the duration for the
one animation listed. -/
def typeGlobalDurationLocal : AnimationOptions :=
  { window := .window 5
    object :=
      { to_ := .undefined, from_ := .undefined, duration := none, delay := none,
        curve := none, type := some 1, fullScreen := none, keepAlive := none,
        metaValues := [] }
    animations := .array
      [some { to_ := .undefined, from_ := .undefined, duration := some 100, delay := none,
              curve := none, type := none, fullScreen := none, keepAlive := none,
              metaValues := [] }] }

/-! ## Helper lemmas -/

namespace DamageJournal

/-- Accumulating a list of regions into a region yields exactly the pixels of the
start region and of the listed regions. -/
theorem mem_foldl_union (l : List Region) (init : Region) (p : Int × Int) :
    p ∈ l.foldl (fun region entry => region ∪ entry) init ↔ p ∈ init ∨ ∃ r ∈ l, p ∈ r := by
  induction l generalizing init with
  | nil => simp
  | cons a t ih =>
    simp only [List.foldl_cons, ih, Finset.mem_union, List.mem_cons, exists_eq_or_imp]
    tauto

/-- Accumulating left to right from the empty region is the right-nested union. -/
theorem foldl_union_eq_foldr (l : List Region) :
    l.foldl (fun region entry => region ∪ entry) ∅ = l.foldr (fun entry rest => entry ∪ rest) ∅ := by
  ext p
  rw [mem_foldl_union]
  induction l with
  | nil => simp
  | cons a t ih =>
    simp only [List.foldr_cons, Finset.mem_union, List.mem_cons, exists_eq_or_imp]
    simp only [Finset.not_mem_empty, false_or] at ih
    rw [← ih]
    simp

/-- After any number of `add` calls the retained log is an initial segment of the full
history (the added regions, newest first, followed by the earlier log). -/
theorem log_foldl_add_initial (rs : List Region) (j : DamageJournal) :
    (rs.foldl add j).log <+: rs.reverse ++ j.log := by
  induction rs generalizing j with
  | nil => simp
  | cons r t ih =>
    have h := ih (j.add r)
    simp only [List.foldl_cons, List.reverse_cons, List.append_assoc, List.singleton_append]
    refine h.trans ?_
    apply List.prefix_append_right_inj _ |>.mpr
    simp only [add]
    exact (List.prefix_cons_inj r).mpr ( List.take_prefix _ _)

/-- Right after `add`, age 1 selects exactly the region just added. -/
theorem accumulate_add_one (j : DamageJournal) (region fallback : Region) :
    accumulate (j.add region) 1 fallback = region := by
  have hcond : ¬ ((1 : Int) ≤ 0 ∨ (((j.add region).depth : Nat) : Int) < 1) := by
    simp only [depth, add, List.length_cons]
    omega
  simp only [accumulate, if_neg hcond]
  simp [add]

end DamageJournal

/-! ## Swap chain: successful and failed swaps -/

namespace GbmSurface

/-- C1: when the driver swap succeeds and the front buffer is acquired, `swapBuffers`
returns the new buffer and appends it to the locked buffers, whose number grows by
exactly one; the dirty region is added to the damage journal and the buffer age is set to
the age the driver reports exactly when the backend supports buffer age, and both are
unchanged otherwise.  The same holds for `swapBuffersForDrm` when the new buffer has a
non-zero framebuffer id. -/
theorem swap_success (s : GbmSurface) (dirty : Region) (d : SwapDriver) (bo : Nat)
    (hswap : d.eglSwapBuffers = true) (hlock : d.lockFrontBuffer = some bo) :
    ((s.swapBuffers dirty d).ret = some ⟨d.bufferPtr, bo⟩ ∧
      (s.swapBuffers dirty d).surface.m_lockedBuffers
        = s.m_lockedBuffers ++ [⟨d.bufferPtr, bo⟩] ∧
      (s.swapBuffers dirty d).surface.m_lockedBuffers.length
        = s.m_lockedBuffers.length + 1 ∧
      (s.swapBuffers dirty d).surface.m_damageJournal
        = (if s.m_eglBackend.supportsBufferAge = true then s.m_damageJournal.add dirty
           else s.m_damageJournal) ∧
      bufferAge (s.swapBuffers dirty d).surface
        = (if s.m_eglBackend.supportsBufferAge = true then d.bufferAge else bufferAge s)) ∧
    (d.bufferId ≠ 0 →
      (s.swapBuffersForDrm dirty d).ret = some ⟨⟨d.bufferPtr, bo⟩, d.bufferId⟩ ∧
      (s.swapBuffersForDrm dirty d).surface.m_lockedBuffers
        = s.m_lockedBuffers ++ [⟨d.bufferPtr, bo⟩] ∧
      (s.swapBuffersForDrm dirty d).surface.m_lockedBuffers.length
        = s.m_lockedBuffers.length + 1 ∧
      (s.swapBuffersForDrm dirty d).surface.m_damageJournal
        = (if s.m_eglBackend.supportsBufferAge = true then s.m_damageJournal.add dirty
           else s.m_damageJournal) ∧
      bufferAge (s.swapBuffersForDrm dirty d).surface
        = (if s.m_eglBackend.supportsBufferAge = true then d.bufferAge else bufferAge s)) := by
  refine ⟨?_, fun hid => ?_⟩
  · cases hage : s.m_eglBackend.supportsBufferAge <;>
      simp [swapBuffers, bufferAge, hswap, hlock, hage]
  · cases hage : s.m_eglBackend.supportsBufferAge <;>
      simp [swapBuffersForDrm, bufferAge, hswap, hlock, hage, hid]

/-- C1, at a concrete input: a fresh surface with buffer age support, one dirty pixel. -/
theorem swap_success_witness :
    (driverOk.eglSwapBuffers = true ∧ driverOk.lockFrontBuffer = some 7 ∧
      driverOk.bufferId ≠ 0) ∧
    (freshSurface.swapBuffers (pixel 3 4) driverOk).ret = some ⟨100, 7⟩ ∧
    (freshSurface.swapBuffers (pixel 3 4) driverOk).surface.m_lockedBuffers = [⟨100, 7⟩] ∧
    (freshSurface.swapBuffersForDrm (pixel 3 4) driverOk).ret = some ⟨⟨100, 7⟩, 42⟩ ∧
    (freshSurface.swapBuffersForDrm (pixel 3 4) driverOk).surface.m_damageJournal
      = ⟨[pixel 3 4], 10⟩ ∧
    bufferAge (freshSurface.swapBuffersForDrm (pixel 3 4) driverOk).surface = 1 := by
  have h := swap_success freshSurface (pixel 3 4) driverOk 7 rfl rfl
  have h2 := h.2 (by decide)
  exact ⟨by decide, h.1.1, h.1.2.1, h2.1, h2.2.2.2.1, h2.2.2.2.2⟩

/-- C2: `repaintRegion` is the damage accumulated for the recorded buffer age, with the
infinite region as fallback, when the backend supports buffer age; otherwise it is the
infinite region, whatever the journal and the recorded age are. -/
theorem repaintRegion_spec (infiniteRegion : Region) (s : GbmSurface) :
    (s.m_eglBackend.supportsBufferAge = true ∧
      repaintRegion infiniteRegion s
        = s.m_damageJournal.accumulate (bufferAge s) infiniteRegion) ∨
    (s.m_eglBackend.supportsBufferAge = false ∧
      repaintRegion infiniteRegion s = infiniteRegion ∧
      ∀ (journal : DamageJournal) (age : Int),
        repaintRegion infiniteRegion { s with m_damageJournal := journal, m_bufferAge := age }
          = infiniteRegion) := by
  cases hage : s.m_eglBackend.supportsBufferAge
  · right
    simp [repaintRegion, hage]
  · left
    simp [repaintRegion, bufferAge, hage]

/-- C6: when `eglSwapBuffers` fails, both swap functions return no buffer and leave the
surface, and with it the damage journal, as it was. -/
theorem swap_driver_failure (s : GbmSurface) (dirty : Region) (d : SwapDriver)
    (hswap : d.eglSwapBuffers = false) :
    ((s.swapBuffers dirty d).ret = none ∧
      (s.swapBuffers dirty d).surface.m_damageJournal = s.m_damageJournal ∧
      (s.swapBuffers dirty d).surface = s) ∧
    ((s.swapBuffersForDrm dirty d).ret = none ∧
      (s.swapBuffersForDrm dirty d).surface.m_damageJournal = s.m_damageJournal ∧
      (s.swapBuffersForDrm dirty d).surface = s) := by
  simp [swapBuffers, swapBuffersForDrm, hswap]

/-- C6, at a concrete input. -/
theorem swap_driver_failure_witness :
    driverSwapFails.eglSwapBuffers = false ∧
    (freshSurface.swapBuffers (pixel 3 4) driverSwapFails).ret = none ∧
    (freshSurface.swapBuffers (pixel 3 4) driverSwapFails).surface.m_damageJournal
      = ⟨[], 10⟩ ∧
    (freshSurface.swapBuffersForDrm (pixel 3 4) driverSwapFails).ret = none ∧
    (freshSurface.swapBuffersForDrm (pixel 3 4) driverSwapFails).surface.m_damageJournal
      = ⟨[], 10⟩ := by
  have h := swap_driver_failure freshSurface (pixel 3 4) driverSwapFails rfl
  exact ⟨rfl, h.1.1, h.1.2.1, h.2.1, h.2.2.1⟩

/-- C7: when the driver swap succeeds but `gbm_surface_lock_front_buffer` returns null,
both swap functions return no buffer, and the locked buffers, the current buffer, the
recorded buffer age and the damage journal are unchanged. -/
theorem swap_lock_failure (s : GbmSurface) (dirty : Region) (d : SwapDriver)
    (hswap : d.eglSwapBuffers = true) (hlock : d.lockFrontBuffer = none) :
    ((s.swapBuffers dirty d).ret = none ∧
      (s.swapBuffers dirty d).surface.m_lockedBuffers = s.m_lockedBuffers ∧
      currentBuffer (s.swapBuffers dirty d).surface = currentBuffer s ∧
      bufferAge (s.swapBuffers dirty d).surface = bufferAge s ∧
      (s.swapBuffers dirty d).surface.m_damageJournal = s.m_damageJournal) ∧
    ((s.swapBuffersForDrm dirty d).ret = none ∧
      (s.swapBuffersForDrm dirty d).surface.m_lockedBuffers = s.m_lockedBuffers ∧
      currentBuffer (s.swapBuffersForDrm dirty d).surface = currentBuffer s ∧
      currentDrmBuffer (s.swapBuffersForDrm dirty d).surface = currentDrmBuffer s ∧
      bufferAge (s.swapBuffersForDrm dirty d).surface = bufferAge s ∧
      (s.swapBuffersForDrm dirty d).surface.m_damageJournal = s.m_damageJournal) := by
  simp [swapBuffers, swapBuffersForDrm, hswap, hlock]

/-- C7, at a concrete input. -/
theorem swap_lock_failure_witness :
    (driverLockFails.eglSwapBuffers = true ∧ driverLockFails.lockFrontBuffer = none) ∧
    (freshSurface.swapBuffers (pixel 3 4) driverLockFails).ret = none ∧
    (freshSurface.swapBuffers (pixel 3 4) driverLockFails).surface.m_lockedBuffers = [] ∧
    (freshSurface.swapBuffersForDrm (pixel 3 4) driverLockFails).ret = none ∧
    (freshSurface.swapBuffersForDrm (pixel 3 4) driverLockFails).surface.m_lockedBuffers
      = [] := by
  have h := swap_lock_failure freshSurface (pixel 3 4) driverLockFails rfl rfl
  exact ⟨⟨rfl, rfl⟩, h.1.1, h.1.2.1, h.2.1, h.2.2.1⟩

end GbmSurface

/-! ## Damage journal: accumulation -/

namespace DamageJournal

/-- C3: start from any journal and add any regions `rs` (oldest first).  For every age
from 1 up to the retained depth of the resulting journal, `accumulate` returns the union
of the `age` most recently added regions, the newest through the `age`-th most recent:
its pixels are exactly the pixels of those regions, and the result does not depend on
the fallback. -/
theorem accumulate_recent (j : DamageJournal) (rs : List Region) (age : Int)
    (fallback : Region) (hlo : 1 ≤ age) (hhi : age ≤ ((rs.foldl add j).depth : Int)) :
    accumulate (rs.foldl add j) age fallback
      = ((rs.reverse ++ j.log).take age.toNat).foldr (fun entry rest => entry ∪ rest) ∅ ∧
    (∀ p : Int × Int, p ∈ accumulate (rs.foldl add j) age fallback ↔
      ∃ r ∈ (rs.reverse ++ j.log).take age.toNat, p ∈ r) ∧
    (∀ other : Region,
      accumulate (rs.foldl add j) age other = accumulate (rs.foldl add j) age fallback) := by
  have hcond : ¬ (age ≤ 0 ∨ ((rs.foldl add j).depth : Int) < age) := by omega
  have hlen : age.toNat ≤ (rs.foldl add j).log.length := by
    simp only [depth] at hhi
    omega
  have htake : (rs.foldl add j).log.take age.toNat
      = (rs.reverse ++ j.log).take age.toNat := by
    obtain ⟨t, ht⟩ := log_foldl_add_initial rs j
    rw [← ht, List.take_append_of_le_length hlen]
  have hacc : ∀ fb : Region, accumulate (rs.foldl add j) age fb
      = ((rs.reverse ++ j.log).take age.toNat).foldl (fun region entry => region ∪ entry) ∅ := by
    intro fb
    simp only [accumulate, if_neg hcond, htake]
  refine ⟨?_, ?_, ?_⟩
  · rw [hacc, foldl_union_eq_foldr]
  · intro p
    rw [hacc, mem_foldl_union]
    simp
  · intro other
    rw [hacc, hacc]

/-- C3, at a concrete input: three regions added to an empty journal, age 2. -/
theorem accumulate_recent_witness :
    ((1 : Int) ≤ 2 ∧
      (2 : Int) ≤ (([pixel 1 1, pixel 2 2, pixel 3 3].foldl add ⟨[], 10⟩).depth : Int)) ∧
    accumulate ([pixel 1 1, pixel 2 2, pixel 3 3].foldl add ⟨[], 10⟩) 2 (pixel 9 9)
      = (([pixel 1 1, pixel 2 2, pixel 3 3].reverse ++ []).take (2 : Int).toNat).foldr
          (fun entry rest => entry ∪ rest) ∅ ∧
    accumulate ([pixel 1 1, pixel 2 2, pixel 3 3].foldl add ⟨[], 10⟩) 2 (pixel 9 9)
      = {(3, 3), (2, 2)} := by
  refine ⟨by decide, ?_, by decide⟩
  exact (accumulate_recent ⟨[], 10⟩ [pixel 1 1, pixel 2 2, pixel 3 3] 2 (pixel 9 9)
    (by decide) (by decide)).1

/-- C4: `accumulate` returns exactly the fallback region when the age is 0, negative,
or larger than the retained depth of the journal. -/
theorem accumulate_fallback (j : DamageJournal) (age : Int) (fallback : Region)
    (hage : age ≤ 0 ∨ (j.depth : Int) < age) :
    accumulate j age fallback = fallback := by
  simp only [accumulate, if_pos hage]

/-- C4, at concrete inputs: ages 0, -1 and depth + 1 on a journal of depth 2. -/
theorem accumulate_fallback_witness :
    accumulate ⟨[pixel 1 1, pixel 2 2], 10⟩ 0 (pixel 9 9) = pixel 9 9 ∧
    accumulate ⟨[pixel 1 1, pixel 2 2], 10⟩ (-1) (pixel 9 9) = pixel 9 9 ∧
    accumulate ⟨[pixel 1 1, pixel 2 2], 10⟩
      (((⟨[pixel 1 1, pixel 2 2], 10⟩ : DamageJournal).depth : Int) + 1) (pixel 9 9)
      = pixel 9 9 :=
  ⟨accumulate_fallback _ 0 _ (Or.inl (by decide)),
   accumulate_fallback _ (-1) _ (Or.inl (by decide)),
   accumulate_fallback _ _ _ (Or.inr (by decide))⟩

end DamageJournal

namespace GbmSurface

/-- C5: on a backend with buffer age support, after three successful `swapBuffers` calls
with dirty regions `R1`, `R2`, `R3` for which the driver reports the buffer ages 1, 2, 1,
every call returned a buffer and `repaintRegion` is `R3`. -/
theorem repaintRegion_after_three_swaps (s : GbmSurface) (infiniteRegion R1 R2 R3 : Region)
    (bo1 bo2 bo3 ptr1 ptr2 ptr3 id1 id2 id3 : Nat)
    (hage : s.m_eglBackend.supportsBufferAge = true) :
    (s.swapBuffers R1 ⟨true, some bo1, ptr1, id1, 1⟩).ret = some ⟨ptr1, bo1⟩ ∧
    ((s.swapBuffers R1 ⟨true, some bo1, ptr1, id1, 1⟩).surface.swapBuffers R2
      ⟨true, some bo2, ptr2, id2, 2⟩).ret = some ⟨ptr2, bo2⟩ ∧
    (((s.swapBuffers R1 ⟨true, some bo1, ptr1, id1, 1⟩).surface.swapBuffers R2
      ⟨true, some bo2, ptr2, id2, 2⟩).surface.swapBuffers R3
      ⟨true, some bo3, ptr3, id3, 1⟩).ret = some ⟨ptr3, bo3⟩ ∧
    repaintRegion infiniteRegion
      (((s.swapBuffers R1 ⟨true, some bo1, ptr1, id1, 1⟩).surface.swapBuffers R2
        ⟨true, some bo2, ptr2, id2, 2⟩).surface.swapBuffers R3
        ⟨true, some bo3, ptr3, id3, 1⟩).surface = R3 := by
  simp [swapBuffers, repaintRegion, hage, DamageJournal.accumulate_add_one]

/-- C5, at a concrete input: three one-pixel regions on a fresh surface. -/
theorem repaintRegion_after_three_swaps_witness :
    freshSurface.m_eglBackend.supportsBufferAge = true ∧
    repaintRegion (pixel 0 0)
      (((freshSurface.swapBuffers (pixel 1 1) ⟨true, some 7, 100, 0, 1⟩).surface.swapBuffers
        (pixel 2 2) ⟨true, some 8, 101, 0, 2⟩).surface.swapBuffers (pixel 3 3)
        ⟨true, some 9, 102, 0, 1⟩).surface = pixel 3 3 :=
  ⟨rfl, (repaintRegion_after_three_swaps freshSurface (pixel 0 0) (pixel 1 1) (pixel 2 2)
    (pixel 3 3) 7 8 9 100 101 102 0 0 0 rfl).2.2.2⟩

end GbmSurface

/-! ## Swap chain: what a failed swap leaves behind -/

namespace GbmSurface

/-- C8 (as stated) fails: on a fresh surface, when the driver swaps and locks a buffer
for which no framebuffer could be made (framebuffer id 0), `swapBuffersForDrm` returns
no buffer, yet `currentBuffer` has changed from null to the buffer obtained in the call. -/
theorem swapBuffersForDrm_no_framebuffer_changes_currentBuffer :
    (freshSurface.swapBuffersForDrm (pixel 3 4) driverNoFramebuffer).ret = none ∧
    currentBuffer freshSurface = none ∧
    currentBuffer (freshSurface.swapBuffersForDrm (pixel 3 4) driverNoFramebuffer).surface
      = some ⟨100, 7⟩ := by
  decide

/-- C8 (amended): whenever `swapBuffers` returns no buffer the surface is unchanged, so
`currentBuffer` and `currentDrmBuffer` are the same as before; whenever
`swapBuffersForDrm` returns no buffer, `currentDrmBuffer` is the same as before, and so is
`currentBuffer` if the driver swap or the front-buffer acquisition failed. -/
theorem swap_none_keeps_presented (s : GbmSurface) (dirty : Region) (d : SwapDriver) :
    ((s.swapBuffers dirty d).ret = none →
      currentBuffer (s.swapBuffers dirty d).surface = currentBuffer s ∧
      currentDrmBuffer (s.swapBuffers dirty d).surface = currentDrmBuffer s) ∧
    ((s.swapBuffersForDrm dirty d).ret = none →
      currentDrmBuffer (s.swapBuffersForDrm dirty d).surface = currentDrmBuffer s ∧
      (d.eglSwapBuffers = false ∨ d.lockFrontBuffer = none →
        currentBuffer (s.swapBuffersForDrm dirty d).surface = currentBuffer s)) := by
  constructor
  · intro h
    cases hswap : d.eglSwapBuffers
    · simp [swapBuffers, hswap]
    · cases hlock : d.lockFrontBuffer with
      | none => simp [swapBuffers, hswap, hlock]
      | some bo =>
        cases hage : s.m_eglBackend.supportsBufferAge <;>
          simp [swapBuffers, hswap, hlock, hage] at h
  · intro h
    cases hswap : d.eglSwapBuffers
    · simp [swapBuffersForDrm, hswap]
    · cases hlock : d.lockFrontBuffer with
      | none => simp [swapBuffersForDrm, hswap, hlock]
      | some bo =>
        by_cases hid : d.bufferId = 0
        · simp [swapBuffersForDrm, currentDrmBuffer, hswap, hlock, hid]
        · cases hage : s.m_eglBackend.supportsBufferAge <;>
            simp [swapBuffersForDrm, hswap, hlock, hage, hid] at h

/-- C8 (amended), at concrete inputs: a swap that fails in the driver and a
`swapBuffersForDrm` whose buffer has no framebuffer, on a surface already presenting a
buffer. -/
theorem swap_none_keeps_presented_witness :
    ((freshSurface.swapBuffersForDrm (pixel 1 1) driverOk).surface.swapBuffers (pixel 3 4)
        driverSwapFails).ret = none ∧
    currentBuffer ((freshSurface.swapBuffersForDrm (pixel 1 1) driverOk).surface.swapBuffers
        (pixel 3 4) driverSwapFails).surface = some ⟨100, 7⟩ ∧
    ((freshSurface.swapBuffersForDrm (pixel 1 1) driverOk).surface.swapBuffersForDrm
        (pixel 3 4) driverNoFramebuffer).ret = none ∧
    currentDrmBuffer ((freshSurface.swapBuffersForDrm (pixel 1 1)
        driverOk).surface.swapBuffersForDrm (pixel 3 4) driverNoFramebuffer).surface
      = some ⟨⟨100, 7⟩, 42⟩ := by
  have h1 := (swap_none_keeps_presented (freshSurface.swapBuffersForDrm (pixel 1 1)
    driverOk).surface (pixel 3 4) driverSwapFails).1 (by decide)
  have h2 := (swap_none_keeps_presented (freshSurface.swapBuffersForDrm (pixel 1 1)
    driverOk).surface (pixel 3 4) driverNoFramebuffer).2 (by decide)
  exact ⟨by decide, h1.1.trans (by decide), by decide, h2.1.trans (by decide)⟩

/-! ## Swap chain: the locked buffers -/

/-- Both swap functions append to the locked buffers exactly the buffer whose lock the
driver granted, if any. -/
theorem swapBuffers_locked (s : GbmSurface) (dirty : Region) (d : SwapDriver) :
    (s.swapBuffers dirty d).surface.m_lockedBuffers
      = s.m_lockedBuffers ++ d.acquired.toList := by
  cases hswap : d.eglSwapBuffers
  · simp [swapBuffers, SwapDriver.acquired, hswap]
  · cases hlock : d.lockFrontBuffer with
    | none => simp [swapBuffers, SwapDriver.acquired, hswap, hlock]
    | some bo =>
      cases hage : s.m_eglBackend.supportsBufferAge <;>
        simp [swapBuffers, SwapDriver.acquired, hswap, hlock, hage]

/-- The same for `swapBuffersForDrm`, whatever the framebuffer id. -/
theorem swapBuffersForDrm_locked (s : GbmSurface) (dirty : Region) (d : SwapDriver) :
    (s.swapBuffersForDrm dirty d).surface.m_lockedBuffers
      = s.m_lockedBuffers ++ d.acquired.toList := by
  cases hswap : d.eglSwapBuffers
  · simp [swapBuffersForDrm, SwapDriver.acquired, hswap]
  · cases hlock : d.lockFrontBuffer with
    | none => simp [swapBuffersForDrm, SwapDriver.acquired, hswap, hlock]
    | some bo =>
      by_cases hid : d.bufferId = 0
      · simp [swapBuffersForDrm, SwapDriver.acquired, hswap, hlock, hid]
      · cases hage : s.m_eglBackend.supportsBufferAge <;>
          simp [swapBuffersForDrm, SwapDriver.acquired, hswap, hlock, hage, hid]

end GbmSurface

/-- What `swapBuffers` returns is the buffer whose lock the driver granted, if any. -/
theorem GbmSurface.swapBuffers_ret (s : GbmSurface) (dirty : Region) (d : SwapDriver) :
    (s.swapBuffers dirty d).ret = d.acquired := by
  cases hswap : d.eglSwapBuffers
  · simp [GbmSurface.swapBuffers, SwapDriver.acquired, hswap]
  · cases hlock : d.lockFrontBuffer with
    | none => simp [GbmSurface.swapBuffers, SwapDriver.acquired, hswap, hlock]
    | some bo =>
      cases hage : s.m_eglBackend.supportsBufferAge <;>
        simp [GbmSurface.swapBuffers, SwapDriver.acquired, hswap, hlock, hage]

/-- What `swapBuffersForDrm` returns is the buffer whose lock the driver granted, if any,
unless that buffer got no framebuffer. -/
theorem GbmSurface.swapBuffersForDrm_ret (s : GbmSurface) (dirty : Region) (d : SwapDriver)
    (h : (Call.swapBuffersForDrm dirty d).locksWithoutFramebuffer = false) :
    (s.swapBuffersForDrm dirty d).ret.map DrmGbmBuffer.toGbmBuffer = d.acquired := by
  cases hswap : d.eglSwapBuffers
  · simp [GbmSurface.swapBuffersForDrm, SwapDriver.acquired, hswap]
  · cases hlock : d.lockFrontBuffer with
    | none => simp [GbmSurface.swapBuffersForDrm, SwapDriver.acquired, hswap, hlock]
    | some bo =>
      have hid : d.bufferId ≠ 0 := by
        simpa [Call.locksWithoutFramebuffer, SwapDriver.acquired, hswap, hlock] using h
      cases hage : s.m_eglBackend.supportsBufferAge <;>
        simp [GbmSurface.swapBuffersForDrm, SwapDriver.acquired, hswap, hlock, hage, hid]

/-- One call keeps the locked buffers a rearrangement of the acquired, unreleased ones. -/
theorem Run.step_perm (r : Run) (c : Call)
    (h : r.surface.m_lockedBuffers.Perm r.acquired) :
    (r.step c).surface.m_lockedBuffers.Perm (r.step c).acquired := by
  cases c with
  | swapBuffers dirty d =>
    simp only [Run.step, GbmSurface.swapBuffers_locked]
    exact List.perm_append_comm.trans (h.append_left _)
  | swapBuffersForDrm dirty d =>
    simp only [Run.step, GbmSurface.swapBuffersForDrm_locked]
    exact List.perm_append_comm.trans (h.append_left _)
  | releaseBuffer buffer =>
    simp only [Run.step, GbmSurface.releaseBuffer]
    exact h.erase buffer

/-- Any sequence of calls keeps the locked buffers a rearrangement of the acquired,
unreleased ones. -/
theorem Run.foldl_step_perm (calls : List Call) (r : Run)
    (h : r.surface.m_lockedBuffers.Perm r.acquired) :
    (calls.foldl Run.step r).surface.m_lockedBuffers.Perm (calls.foldl Run.step r).acquired := by
  induction calls generalizing r with
  | nil => exact h
  | cons c t ih => exact ih (r.step c) (Run.step_perm r c h)

/-- As long as no call locks a buffer without framebuffer, the returned, unreleased
buffers are the acquired, unreleased ones. -/
theorem Run.foldl_step_returned (calls : List Call) (r : Run)
    (hcalls : ∀ c ∈ calls, c.locksWithoutFramebuffer = false)
    (h : r.returned = r.acquired) :
    (calls.foldl Run.step r).returned = (calls.foldl Run.step r).acquired := by
  induction calls generalizing r with
  | nil => exact h
  | cons c t ih =>
    refine ih (r.step c) (fun c2 hc2 => hcalls c2 (List.mem_cons_of_mem _ hc2)) ?_
    have hc := hcalls c (List.mem_cons_self _ _)
    cases c with
    | swapBuffers dirty d =>
      simp only [Run.step, GbmSurface.swapBuffers_ret, h]
    | swapBuffersForDrm dirty d =>
      simp only [Run.step, GbmSurface.swapBuffersForDrm_ret _ _ _ hc, h]
    | releaseBuffer buffer =>
      simp only [Run.step, h]

/-- C9 (as stated) fails: after one `swapBuffersForDrm` call on a fresh surface in which
the locked buffer got no framebuffer, one buffer is locked although no swap call has
returned a buffer. -/
theorem locked_exceeds_returned :
    (run freshSurface [.swapBuffersForDrm (pixel 3 4) driverNoFramebuffer]
      ).surface.m_lockedBuffers.length = 1 ∧
    (run freshSurface [.swapBuffersForDrm (pixel 3 4) driverNoFramebuffer]).returned.length
      = 0 := by
  decide

/-- C9 (amended): for every sequence of `swapBuffers`, `swapBuffersForDrm` and
`releaseBuffer` calls on a newly constructed surface, the number of locked buffers is
never negative and never exceeds the number of buffers whose front-buffer lock a swap
call obtained from the driver (returned by the call or not) and that have not been
released since; if no `swapBuffersForDrm` call of the sequence locked a buffer with
framebuffer id 0, it never exceeds the number of buffers a swap call returned and that
have not been released since. -/
theorem locked_le_acquired (backend : EglGbmBackend) (size : Int × Int) (format : Nat)
    (modifiers : List Nat) (surface eglSurface : Option Nat) (journal : DamageJournal)
    (calls : List Call) :
    0 ≤ (run (GbmSurface.construct backend size format modifiers surface eglSurface journal)
      calls).surface.m_lockedBuffers.length ∧
    (run (GbmSurface.construct backend size format modifiers surface eglSurface journal)
      calls).surface.m_lockedBuffers.length
      ≤ (run (GbmSurface.construct backend size format modifiers surface eglSurface journal)
      calls).acquired.length ∧
    ((∀ c ∈ calls, c.locksWithoutFramebuffer = false) →
      (run (GbmSurface.construct backend size format modifiers surface eglSurface journal)
        calls).surface.m_lockedBuffers.length
        ≤ (run (GbmSurface.construct backend size format modifiers surface eglSurface journal)
        calls).returned.length) := by
  have hperm := Run.foldl_step_perm calls
    { surface := GbmSurface.construct backend size format modifiers surface eglSurface journal,
      returned := [], acquired := [] } (by simp [GbmSurface.construct])
  refine ⟨Nat.zero_le _, le_of_eq hperm.length_eq, fun hcalls => ?_⟩
  have hret := Run.foldl_step_returned calls
    { surface := GbmSurface.construct backend size format modifiers surface eglSurface journal,
      returned := [], acquired := [] } hcalls rfl
  simp only [run, hret]
  exact le_of_eq hperm.length_eq

/-- C9 (amended), at a concrete input: two swaps, a release of the first buffer, a failed
swap and a release of a buffer that is not locked. -/
theorem locked_le_acquired_witness :
    (∀ c ∈ [Call.swapBuffers (pixel 1 1) driverOk,
        Call.swapBuffersForDrm (pixel 2 2) { driverOk with lockFrontBuffer := some 8 },
        Call.releaseBuffer ⟨100, 7⟩, Call.swapBuffers (pixel 3 3) driverSwapFails,
        Call.releaseBuffer ⟨5, 5⟩], c.locksWithoutFramebuffer = false) ∧
    (run freshSurface [Call.swapBuffers (pixel 1 1) driverOk,
        Call.swapBuffersForDrm (pixel 2 2) { driverOk with lockFrontBuffer := some 8 },
        Call.releaseBuffer ⟨100, 7⟩, Call.swapBuffers (pixel 3 3) driverSwapFails,
        Call.releaseBuffer ⟨5, 5⟩]).surface.m_lockedBuffers.length
      ≤ (run freshSurface [Call.swapBuffers (pixel 1 1) driverOk,
        Call.swapBuffersForDrm (pixel 2 2) { driverOk with lockFrontBuffer := some 8 },
        Call.releaseBuffer ⟨100, 7⟩, Call.swapBuffers (pixel 3 3) driverSwapFails,
        Call.releaseBuffer ⟨5, 5⟩]).returned.length ∧
    (run freshSurface [Call.swapBuffers (pixel 1 1) driverOk,
        Call.swapBuffersForDrm (pixel 2 2) { driverOk with lockFrontBuffer := some 8 },
        Call.releaseBuffer ⟨100, 7⟩, Call.swapBuffers (pixel 3 3) driverSwapFails,
        Call.releaseBuffer ⟨5, 5⟩]).surface.m_lockedBuffers = [⟨100, 8⟩] := by
  have hcalls : ∀ c ∈ [Call.swapBuffers (pixel 1 1) driverOk,
      Call.swapBuffersForDrm (pixel 2 2) { driverOk with lockFrontBuffer := some 8 },
      Call.releaseBuffer ⟨100, 7⟩, Call.swapBuffers (pixel 3 3) driverSwapFails,
      Call.releaseBuffer ⟨5, 5⟩], c.locksWithoutFramebuffer = false := by
    intro c hc
    simp only [List.mem_cons, List.mem_singleton, List.not_mem_nil, or_false] at hc
    rcases hc with rfl | rfl | rfl | rfl | rfl <;> decide
  exact ⟨hcalls, (locked_le_acquired ⟨true⟩ (1920, 1080) 875713112 [] (some 1) (some 2)
    ⟨[], 10⟩ _).2.2 hcalls, by decide⟩

namespace GbmSurface

/-- C10: releasing a buffer that is among the locked buffers issues one
`gbm_surface_release_buffer` call, for that buffer's `gbm_bo`, and removes exactly one
occurrence of the buffer (the first); all other locked buffers stay, in their order, and
the current buffers, the recorded buffer age and the damage journal are unchanged. -/
theorem releaseBuffer_locked (s : GbmSurface) (buffer : GbmBuffer)
    (h : buffer ∈ s.m_lockedBuffers) :
    (s.releaseBuffer buffer).calls
      = [DriverCall.gbm_surface_release_buffer s.m_surface buffer.bo] ∧
    (∃ before after : List GbmBuffer, buffer ∉ before ∧
      s.m_lockedBuffers = before ++ buffer :: after ∧
      (s.releaseBuffer buffer).surface.m_lockedBuffers = before ++ after) ∧
    (s.releaseBuffer buffer).surface.m_lockedBuffers.count buffer + 1
      = s.m_lockedBuffers.count buffer ∧
    (∀ other : GbmBuffer, other ≠ buffer →
      (s.releaseBuffer buffer).surface.m_lockedBuffers.count other
        = s.m_lockedBuffers.count other) ∧
    currentBuffer (s.releaseBuffer buffer).surface = currentBuffer s ∧
    currentDrmBuffer (s.releaseBuffer buffer).surface = currentDrmBuffer s ∧
    bufferAge (s.releaseBuffer buffer).surface = bufferAge s ∧
    (s.releaseBuffer buffer).surface.m_damageJournal = s.m_damageJournal := by
  refine ⟨rfl, ?_, ?_, ?_, rfl, rfl, rfl, rfl⟩
  · exact List.exists_erase_eq h
  · simp only [releaseBuffer, List.count_erase_self]
    have hpos : 0 < s.m_lockedBuffers.count buffer := List.count_pos_iff.mpr h
    omega
  · intro other hne
    simp only [releaseBuffer]
    exact List.count_erase_of_ne hne _

/-- C10, at a concrete input: three locked buffers, the middle one is released. -/
theorem releaseBuffer_locked_witness :
    (⟨101, 8⟩ : GbmBuffer) ∈
      ({ freshSurface with m_lockedBuffers := [⟨100, 7⟩, ⟨101, 8⟩, ⟨102, 9⟩] }
        : GbmSurface).m_lockedBuffers ∧
    (releaseBuffer { freshSurface with m_lockedBuffers := [⟨100, 7⟩, ⟨101, 8⟩, ⟨102, 9⟩] }
      ⟨101, 8⟩).calls = [DriverCall.gbm_surface_release_buffer (some 1) 8] ∧
    (releaseBuffer { freshSurface with m_lockedBuffers := [⟨100, 7⟩, ⟨101, 8⟩, ⟨102, 9⟩] }
      ⟨101, 8⟩).surface.m_lockedBuffers = [⟨100, 7⟩, ⟨102, 9⟩] := by
  have h := releaseBuffer_locked
    { freshSurface with m_lockedBuffers := [⟨100, 7⟩, ⟨101, 8⟩, ⟨102, 9⟩] } ⟨101, 8⟩
    (by decide)
  exact ⟨by decide, h.1, by decide⟩

end GbmSurface

/-! ## Swap chain: releasing a buffer that is not locked, destruction, current buffer -/

namespace GbmSurface

/-- C11 (as stated) fails: after a successful swap on a fresh surface the returned buffer
is released twice.  The second `releaseBuffer` finds the buffer no longer locked, yet it
hands the same `gbm_bo` to `gbm_surface_release_buffer` again. -/
theorem releaseBuffer_twice_releases_twice :
    (⟨100, 7⟩ : GbmBuffer) ∉
      (releaseBuffer (freshSurface.swapBuffers (pixel 1 1) driverOk).surface
        ⟨100, 7⟩).surface.m_lockedBuffers ∧
    (releaseBuffer (freshSurface.swapBuffers (pixel 1 1) driverOk).surface ⟨100, 7⟩).calls
      = [DriverCall.gbm_surface_release_buffer (some 1) 7] ∧
    (releaseBuffer
      (releaseBuffer (freshSurface.swapBuffers (pixel 1 1) driverOk).surface ⟨100, 7⟩).surface
      ⟨100, 7⟩).calls = [DriverCall.gbm_surface_release_buffer (some 1) 7] := by
  decide

/-- C11 (amended): releasing a buffer that is not among the locked buffers leaves the locked
buffers, and every other member of the surface, unchanged. -/
theorem releaseBuffer_not_locked (s : GbmSurface) (buffer : GbmBuffer)
    (h : buffer ∉ s.m_lockedBuffers) :
    (s.releaseBuffer buffer).surface.m_lockedBuffers = s.m_lockedBuffers ∧
    (s.releaseBuffer buffer).surface = s := by
  simp [releaseBuffer, List.erase_of_not_mem h]

/-- C11 (amended), at a concrete input: a buffer released on a surface that has another
buffer locked. -/
theorem releaseBuffer_not_locked_witness :
    (⟨101, 8⟩ : GbmBuffer) ∉ (freshSurface.swapBuffers (pixel 1 1) driverOk).surface.m_lockedBuffers ∧
    (releaseBuffer (freshSurface.swapBuffers (pixel 1 1) driverOk).surface
      ⟨101, 8⟩).surface.m_lockedBuffers = [⟨100, 7⟩] ∧
    (releaseBuffer (freshSurface.swapBuffers (pixel 1 1) driverOk).surface ⟨101, 8⟩).surface
      = (freshSurface.swapBuffers (pixel 1 1) driverOk).surface := by
  have h := releaseBuffer_not_locked (freshSurface.swapBuffers (pixel 1 1) driverOk).surface
    ⟨101, 8⟩ (by decide)
  exact ⟨by decide, h.1.trans (by decide), h.2⟩

/-- The release loop of the destructor: when the locked buffers start with `buffers`,
releasing these one by one removes exactly them and issues one release call for each,
in order. -/
theorem release_loop (buffers rest : List GbmBuffer) (o : Outcome Unit)
    (h : o.surface.m_lockedBuffers = buffers ++ rest) :
    (buffers.foldl
      (fun (o : Outcome Unit) buffer =>
        (⟨(), (buffer.releaseBuffer o.surface).surface,
          o.calls ++ (buffer.releaseBuffer o.surface).calls⟩ : Outcome Unit)) o).surface
      = { o.surface with m_lockedBuffers := rest } ∧
    (buffers.foldl
      (fun (o : Outcome Unit) buffer =>
        (⟨(), (buffer.releaseBuffer o.surface).surface,
          o.calls ++ (buffer.releaseBuffer o.surface).calls⟩ : Outcome Unit)) o).calls
      = o.calls ++ buffers.map
          (fun b => DriverCall.gbm_surface_release_buffer o.surface.m_surface b.bo) := by
  induction buffers generalizing o with
  | nil =>
    simp only [List.foldl_nil, List.map_nil, List.append_nil, List.nil_append] at h ⊢
    exact ⟨by rw [← h], trivial⟩
  | cons b t ih =>
    have hstep := ih ⟨(), (b.releaseBuffer o.surface).surface,
      o.calls ++ (b.releaseBuffer o.surface).calls⟩
      (by simp [GbmBuffer.releaseBuffer, releaseBuffer, h])
    simp only [List.foldl_cons, List.map_cons]
    refine ⟨hstep.1.trans ?_, hstep.2.trans ?_⟩
    · simp [GbmBuffer.releaseBuffer, releaseBuffer]
    · simp [GbmBuffer.releaseBuffer, releaseBuffer]

/-- C12: destroying a surface with any locked buffers issues, in this order, one
`gbm_surface_release_buffer` call for each locked buffer (so as many as there are locked
buffers), then `eglDestroySurface` if the EGL surface was created, and last
`gbm_surface_destroy` if the GBM surface was created; no buffer stays locked. -/
theorem destructor_order (s : GbmSurface) :
    s.destructor.calls
      = s.m_lockedBuffers.map
          (fun b => DriverCall.gbm_surface_release_buffer s.m_surface b.bo)
        ++ (s.m_eglSurface.map DriverCall.eglDestroySurface).toList
        ++ (s.m_surface.map DriverCall.gbm_surface_destroy).toList ∧
    (s.m_lockedBuffers.map
      (fun b => DriverCall.gbm_surface_release_buffer s.m_surface b.bo)).length
      = s.m_lockedBuffers.length ∧
    s.destructor.surface.m_lockedBuffers = [] := by
  have h := release_loop s.m_lockedBuffers [] ⟨(), s, []⟩ (by simp)
  refine ⟨?_, by simp, ?_⟩
  · simp only [destructor, h.1, h.2]
    cases s.m_eglSurface <;> cases s.m_surface <;> simp
  · simp only [destructor, h.1]

/-- C12, at a concrete input: a valid surface with two locked buffers. -/
theorem destructor_order_witness :
    (destructor { freshSurface with m_lockedBuffers := [⟨100, 7⟩, ⟨101, 8⟩] }).calls
      = [DriverCall.gbm_surface_release_buffer (some 1) 7,
         DriverCall.gbm_surface_release_buffer (some 1) 8,
         DriverCall.eglDestroySurface 2,
         DriverCall.gbm_surface_destroy 1] ∧
    (destructor { freshSurface with m_lockedBuffers := [⟨100, 7⟩, ⟨101, 8⟩] }
      ).surface.m_lockedBuffers = [] := by
  have h := destructor_order { freshSurface with m_lockedBuffers := [⟨100, 7⟩, ⟨101, 8⟩] }
  exact ⟨h.1.trans (by decide), h.2.2⟩

/-- A swap call during which the driver grants no front buffer leaves the surface as it
was. -/
theorem swap_not_acquired (s : GbmSurface) (dirty : Region) (d : SwapDriver)
    (h : d.acquired = none) :
    (s.swapBuffers dirty d).surface = s ∧ (s.swapBuffersForDrm dirty d).surface = s := by
  cases hswap : d.eglSwapBuffers
  · simp [swapBuffers, swapBuffersForDrm, hswap]
  · cases hlock : d.lockFrontBuffer with
    | none => simp [swapBuffers, swapBuffersForDrm, hswap, hlock]
    | some bo => simp [SwapDriver.acquired, hswap, hlock] at h

/-- The buffer `swapBuffers` returns is the current buffer afterwards. -/
theorem swapBuffers_ret_current (s : GbmSurface) (dirty : Region) (d : SwapDriver)
    (b : GbmBuffer) (h : (s.swapBuffers dirty d).ret = some b) :
    (s.swapBuffers dirty d).surface.m_currentBuffer = some b := by
  cases hswap : d.eglSwapBuffers
  · simp [swapBuffers, hswap] at h
  · cases hlock : d.lockFrontBuffer with
    | none => simp [swapBuffers, hswap, hlock] at h
    | some bo =>
      cases hage : s.m_eglBackend.supportsBufferAge <;>
        simp [swapBuffers, hswap, hlock, hage] at h ⊢ <;> exact h

end GbmSurface

/-- Failed swaps and releases keep the current buffer. -/
theorem Run.foldl_step_currentBuffer (calls : List Call) (r : Run)
    (hcalls : ∀ c ∈ calls, c.isFailedSwapOrRelease = true) :
    (calls.foldl Run.step r).surface.m_currentBuffer = r.surface.m_currentBuffer := by
  induction calls generalizing r with
  | nil => rfl
  | cons c t ih =>
    rw [List.foldl_cons, ih (r.step c) (fun c2 hc2 => hcalls c2 (List.mem_cons_of_mem _ hc2))]
    have hc := hcalls c (List.mem_cons_self _ _)
    cases c with
    | swapBuffers dirty d =>
      have hd : d.acquired = none := by simpa [Call.isFailedSwapOrRelease] using hc
      simp only [Run.step, (GbmSurface.swap_not_acquired r.surface dirty d hd).1]
    | swapBuffersForDrm dirty d =>
      have hd : d.acquired = none := by simpa [Call.isFailedSwapOrRelease] using hc
      simp only [Run.step, (GbmSurface.swap_not_acquired r.surface dirty d hd).2]
    | releaseBuffer buffer => rfl

namespace GbmSurface

/-- C13: when `swapBuffers` returns a buffer `b`, `currentBuffer` is `b` right after the
call, and still is after any sequence of swap calls that fail in the driver (or get no
front buffer) and of `releaseBuffer` calls. -/
theorem currentBuffer_persists (s : GbmSurface) (dirty : Region) (d : SwapDriver)
    (b : GbmBuffer) (calls : List Call)
    (hret : (s.swapBuffers dirty d).ret = some b)
    (hcalls : ∀ c ∈ calls, c.isFailedSwapOrRelease = true) :
    currentBuffer (s.swapBuffers dirty d).surface = some b ∧
    currentBuffer (run (s.swapBuffers dirty d).surface calls).surface = some b := by
  have h := swapBuffers_ret_current s dirty d b hret
  refine ⟨h, ?_⟩
  simp only [currentBuffer, run]
  rw [Run.foldl_step_currentBuffer calls _ hcalls]
  exact h

/-- C13, at a concrete input: after a successful swap, a swap that fails in the driver, a
release of the returned buffer and a swap without front buffer follow. -/
theorem currentBuffer_persists_witness :
    (freshSurface.swapBuffers (pixel 1 1) driverOk).ret = some ⟨100, 7⟩ ∧
    currentBuffer (run (freshSurface.swapBuffers (pixel 1 1) driverOk).surface
      [Call.swapBuffers (pixel 2 2) driverSwapFails, Call.releaseBuffer ⟨100, 7⟩,
       Call.swapBuffersForDrm (pixel 3 3) driverLockFails]).surface = some ⟨100, 7⟩ := by
  have hcalls : ∀ c ∈ [Call.swapBuffers (pixel 2 2) driverSwapFails,
      Call.releaseBuffer ⟨100, 7⟩, Call.swapBuffersForDrm (pixel 3 3) driverLockFails],
      c.isFailedSwapOrRelease = true := by
    intro c hc
    simp only [List.mem_cons, List.mem_singleton, List.not_mem_nil, or_false] at hc
    rcases hc with rfl | rfl | rfl <;> decide
  exact ⟨by decide, (currentBuffer_persists freshSurface (pixel 1 1) driverOk ⟨100, 7⟩ _
    (by decide) hcalls).2⟩

end GbmSurface

/-! ## Direct scanout inhibition -/

namespace AbstractOutput

/-- C14 (as stated) fails: after a single `uninhibitDirectScanout` on a fresh output the
counter is -1, which is not greater than 0, and `directScanoutInhibited` returns true. -/
theorem directScanoutInhibited_negative_counter :
    (uninhibitDirectScanout fresh).m_directScanoutCount = -1 ∧
    ¬ (0 < (uninhibitDirectScanout fresh).m_directScanoutCount) ∧
    directScanoutInhibited (uninhibitDirectScanout fresh) = true := by
  decide

/-- C14 (amended): `directScanoutInhibited` returns true exactly when the counter is not
0; for every counter that is not negative this is exactly when it is greater than 0. -/
theorem directScanoutInhibited_spec (o : AbstractOutput) :
    (directScanoutInhibited o = true ↔ o.m_directScanoutCount ≠ 0) ∧
    (0 ≤ o.m_directScanoutCount →
      (directScanoutInhibited o = true ↔ 0 < o.m_directScanoutCount)) := by
  constructor
  · simp [directScanoutInhibited]
  · intro h
    simp only [directScanoutInhibited, bne_iff_ne, ne_eq]
    omega

/-- C14 (amended), at concrete inputs: counters 0 and 2. -/
theorem directScanoutInhibited_spec_witness :
    ((0 : Int) ≤ 2 ∧ (0 : Int) < 2 ∧ directScanoutInhibited ⟨2⟩ = true) ∧
    ((0 : Int) ≤ 0 ∧ ¬ ((0 : Int) < 0) ∧ directScanoutInhibited ⟨0⟩ = false) := by
  have h2 := (directScanoutInhibited_spec ⟨2⟩).2 (by decide)
  have h0 := (directScanoutInhibited_spec ⟨0⟩).2 (by decide)
  refine ⟨⟨by decide, by decide, h2.mpr (by decide)⟩, by decide, by decide, ?_⟩
  cases hv : directScanoutInhibited ⟨0⟩
  · rfl
  · exact absurd (h0.mp hv) (by decide)

/-- C15: `inhibitDirectScanout` raises the counter by exactly one, `uninhibitDirectScanout`
lowers it by exactly one, and the first followed by the second leaves the counter, and
with it `directScanoutInhibited`, as before. -/
theorem inhibit_uninhibit (o : AbstractOutput) :
    (inhibitDirectScanout o).m_directScanoutCount = o.m_directScanoutCount + 1 ∧
    (uninhibitDirectScanout o).m_directScanoutCount = o.m_directScanoutCount - 1 ∧
    (uninhibitDirectScanout (inhibitDirectScanout o)).m_directScanoutCount
      = o.m_directScanoutCount ∧
    uninhibitDirectScanout (inhibitDirectScanout o) = o ∧
    directScanoutInhibited (uninhibitDirectScanout (inhibitDirectScanout o))
      = directScanoutInhibited o := by
  have h : uninhibitDirectScanout (inhibitDirectScanout o) = o := by
    cases o
    simp [inhibitDirectScanout, uninhibitDirectScanout]
  refine ⟨rfl, rfl, ?_, h, ?_⟩
  · rw [h]
  · rw [h]

end AbstractOutput

/-- After any calls the counter has moved by the number of inhibits minus the number of
uninhibits. -/
theorem foldl_apply_count (calls : List ScanoutCall) (o : AbstractOutput) :
    (calls.foldl ScanoutCall.apply o).m_directScanoutCount
      = o.m_directScanoutCount + (calls.count ScanoutCall.inhibit : Int)
        - (calls.count ScanoutCall.uninhibit : Int) := by
  induction calls generalizing o with
  | nil => simp
  | cons c t ih =>
    rw [List.foldl_cons, ih]
    cases c <;>
      simp [ScanoutCall.apply, AbstractOutput.inhibitDirectScanout,
        AbstractOutput.uninhibitDirectScanout, List.count_cons] <;> omega

/-- C16 (as stated) fails: a single `uninhibitDirectScanout` on a fresh output is neither
rejected nor clamped; the counter becomes negative and `directScanoutInhibited` reports
true. -/
theorem isolated_uninhibit_goes_negative :
    (runScanout [ScanoutCall.uninhibit]).m_directScanoutCount < 0 ∧
    AbstractOutput.directScanoutInhibited AbstractOutput.fresh = false ∧
    AbstractOutput.directScanoutInhibited (runScanout [ScanoutCall.uninhibit]) = true := by
  decide

/-- C16 (amended): for every sequence of `inhibitDirectScanout` / `uninhibitDirectScanout`
calls on a fresh output in which no initial part has more uninhibits than inhibits, the
counter is never negative: after every initial part it is the number of inhibits minus
the number of uninhibits so far. -/
theorem paired_calls_counter_nonneg (calls : List ScanoutCall)
    (hpaired : ∀ p ∈ calls.inits,
      p.count ScanoutCall.uninhibit ≤ p.count ScanoutCall.inhibit) :
    ∀ p ∈ calls.inits,
      0 ≤ (runScanout p).m_directScanoutCount ∧
      (runScanout p).m_directScanoutCount
        = (p.count ScanoutCall.inhibit : Int) - (p.count ScanoutCall.uninhibit : Int) := by
  intro p hp
  have h := foldl_apply_count p AbstractOutput.fresh
  have hle := hpaired p hp
  have h0 : AbstractOutput.fresh.m_directScanoutCount = 0 := rfl
  unfold runScanout
  rw [h, h0]
  omega

/-- C16 (amended), at a concrete input: two inhibits, each later undone. -/
theorem paired_calls_counter_nonneg_witness :
    (∀ p ∈ [ScanoutCall.inhibit, .inhibit, .uninhibit, .uninhibit].inits,
      p.count ScanoutCall.uninhibit ≤ p.count ScanoutCall.inhibit) ∧
    (∀ p ∈ [ScanoutCall.inhibit, .inhibit, .uninhibit, .uninhibit].inits,
      0 ≤ (runScanout p).m_directScanoutCount) ∧
    (runScanout [ScanoutCall.inhibit, .inhibit, .uninhibit]).m_directScanoutCount = 1 := by
  refine ⟨by decide, fun p hp => ?_, by decide⟩
  exact (paired_calls_counter_nonneg [ScanoutCall.inhibit, .inhibit, .uninhibit, .uninhibit]
    (by decide) p hp).1

/-! ## Shadow buffer -/

namespace ShadowBuffer

/-- C17 (as stated) fails: for a format with 32 bits per colour channel `internalFormat`
chooses `GL_RGBA16`, whose 16 bits per channel are fewer than the 32 of the format. -/
theorem internalFormat_too_shallow :
    internalFormat ⟨32, 32, 32⟩ = GLInternalFormat.GL_RGBA16 ∧
    (internalFormat ⟨32, 32, 32⟩).channelDepth < (⟨32, 32, 32⟩ : GbmFormat).redSize := by
  decide

/-- C17 (amended): for every format whose red, green and blue sizes are at most 16, the
internal format chosen has a channel depth that matches or exceeds each of the three
sizes. -/
theorem internalFormat_depth_suffices (format : GbmFormat)
    (hr : format.redSize ≤ 16) (hg : format.greenSize ≤ 16) (hb : format.blueSize ≤ 16) :
    format.redSize ≤ (internalFormat format).channelDepth ∧
    format.greenSize ≤ (internalFormat format).channelDepth ∧
    format.blueSize ≤ (internalFormat format).channelDepth := by
  unfold internalFormat
  split_ifs <;> simp only [GLInternalFormat.channelDepth] <;> omega

/-- C17 (amended), at a concrete input: a 10/10/10 format gets `GL_RGB10_A2`. -/
theorem internalFormat_depth_suffices_witness :
    ((10 : Int) ≤ 16 ∧ internalFormat ⟨10, 10, 10⟩ = GLInternalFormat.GL_RGB10_A2) ∧
    (⟨10, 10, 10⟩ : GbmFormat).redSize ≤ (internalFormat ⟨10, 10, 10⟩).channelDepth ∧
    (⟨10, 10, 10⟩ : GbmFormat).greenSize ≤ (internalFormat ⟨10, 10, 10⟩).channelDepth ∧
    (⟨10, 10, 10⟩ : GbmFormat).blueSize ≤ (internalFormat ⟨10, 10, 10⟩).channelDepth :=
  ⟨by decide, internalFormat_depth_suffices ⟨10, 10, 10⟩ (by decide) (by decide) (by decide)⟩

/-- C18: for every format for which some supported channel depth is at least the largest
of its red, green and blue sizes, the depth of the internal format chosen is at least that
largest size and no supported depth that also suffices is smaller. -/
theorem internalFormat_smallest (format : GbmFormat)
    (h : ∃ f : GLInternalFormat,
      max format.redSize (max format.greenSize format.blueSize) ≤ f.channelDepth) :
    max format.redSize (max format.greenSize format.blueSize)
      ≤ (internalFormat format).channelDepth ∧
    ∀ f : GLInternalFormat,
      max format.redSize (max format.greenSize format.blueSize) ≤ f.channelDepth →
      (internalFormat format).channelDepth ≤ f.channelDepth := by
  obtain ⟨f0, hf0⟩ := h
  simp only [max_le_iff] at hf0 ⊢
  have h16 : format.redSize ≤ 16 ∧ format.greenSize ≤ 16 ∧ format.blueSize ≤ 16 := by
    cases f0 <;> simp only [GLInternalFormat.channelDepth] at hf0 <;> omega
  constructor
  · unfold internalFormat
    split_ifs <;> simp only [GLInternalFormat.channelDepth] <;> omega
  · intro f hf
    unfold internalFormat
    cases f <;> simp only [GLInternalFormat.channelDepth] at hf <;>
      split_ifs <;> simp only [GLInternalFormat.channelDepth] <;> omega

/-- C18, at a concrete input: red, green and blue sizes 8 (the alpha size is not
consulted) give `GL_RGBA8`. -/
theorem internalFormat_smallest_witness :
    internalFormat ⟨8, 8, 8⟩ = GLInternalFormat.GL_RGBA8 ∧
    max (⟨8, 8, 8⟩ : GbmFormat).redSize
        (max (⟨8, 8, 8⟩ : GbmFormat).greenSize (⟨8, 8, 8⟩ : GbmFormat).blueSize)
      ≤ (internalFormat ⟨8, 8, 8⟩).channelDepth ∧
    (internalFormat ⟨8, 8, 8⟩).channelDepth ≤ GLInternalFormat.GL_RGBA8.channelDepth := by
  have h := internalFormat_smallest ⟨8, 8, 8⟩ ⟨GLInternalFormat.GL_RGBA8, by decide⟩
  exact ⟨by decide, h.1, h.2 GLInternalFormat.GL_RGBA8 (by decide)⟩

/-- C19: for each of the eight transforms the matrix passed to the shader is the
rotation about the z axis by the degrees of the rotation component of the transform (0,
90, 180 or 270), composed with the flip `scale(-1, 1)` of the x axis exactly when the
transform is one of the four flipped variants; for `Normal` it is the identity. -/
theorem mvpMatrix_spec (transform : Transform) :
    mvpMatrix transform
      = QMatrix4x4.compose (zRotation transform.rotationDegrees)
          (if transform.isFlipped = true then xFlip else []) ∧
    (MatrixOp.scale (-1) 1 ∈ mvpMatrix transform ↔ transform.isFlipped = true) ∧
    (∀ angle x y z : Int, MatrixOp.rotate angle x y z ∈ mvpMatrix transform →
      angle = transform.rotationDegrees ∧ x = 0 ∧ y = 0 ∧ z = 1) ∧
    mvpMatrix Transform.Normal = [] := by
  have heq : mvpMatrix transform
      = QMatrix4x4.compose (zRotation transform.rotationDegrees)
          (if transform.isFlipped = true then xFlip else []) := by
    cases transform <;> rfl
  refine ⟨heq, ?_, ?_, rfl⟩
  · rw [heq]
    cases transform <;> decide
  · rw [heq]
    cases transform <;>
      simp [QMatrix4x4.compose, zRotation, xFlip, Transform.rotationDegrees,
        Transform.isFlipped]

/-- C20: `isComplete` is true exactly when the render target is valid and the vertex
buffer exists; a shadow buffer constructed with an invalid render target has no vertex
buffer and is incomplete, one constructed with a valid render target has the six-vertex
buffer and is complete. -/
theorem isComplete_spec :
    (∀ s : ShadowBuffer,
      s.isComplete = true ↔ (s.m_renderTargetValid = true ∧ s.m_vbo ≠ none)) ∧
    (∀ (size : Int × Int) (format : GbmFormat),
      (construct size format false).m_renderTargetValid = false ∧
      (construct size format false).m_vbo = none ∧
      (construct size format false).isComplete = false ∧
      (construct size format true).m_renderTargetValid = true ∧
      (construct size format true).m_vbo = some ⟨6, 2, vertices, texCoords⟩ ∧
      (construct size format true).isComplete = true) := by
  constructor
  · intro s
    cases hv : s.m_vbo <;> simp [isComplete, hv]
  · intro size format
    simp [construct, isComplete]

end ShadowBuffer

/-! ## The quad of the shadow buffer -/

/-- The six vertices of the quad. -/
theorem quad_vertices :
    quad.vertex 0 = (-1, 1) ∧ quad.vertex 1 = (-1, -1) ∧ quad.vertex 2 = (1, -1) ∧
    quad.vertex 3 = (-1, 1) ∧ quad.vertex 4 = (1, -1) ∧ quad.vertex 5 = (1, 1) := by
  decide

/-- C21: the vertex buffer of a complete shadow buffer holds exactly six vertices with
two coordinates each; drawn as triangles they form two triangles whose union is the
square from -1 to 1 in both directions; and the texture coordinate of every vertex is
the vertex shifted by (1, 1) and halved. -/
theorem quad_spec :
    (∀ (size : Int × Int) (format : GbmFormat),
      (ShadowBuffer.construct size format true).m_vbo = some quad) ∧
    quad.vertexCount = 6 ∧
    quad.vertices.length = quad.dim * quad.vertexCount ∧
    quad.texCoords.length = quad.dim * quad.vertexCount ∧
    (∀ i : Nat, i < 6 →
      quad.texCoord i = (((quad.vertex i).1 + 1) / 2, ((quad.vertex i).2 + 1) / 2)) ∧
    (∀ p : Rat × Rat,
      (-1 ≤ p.1 ∧ p.1 ≤ 1 ∧ -1 ≤ p.2 ∧ p.2 ≤ 1) ↔
        (inTriangle (quad.vertex 0) (quad.vertex 1) (quad.vertex 2) p ∨
         inTriangle (quad.vertex 3) (quad.vertex 4) (quad.vertex 5) p)) := by
  refine ⟨fun size format => rfl, rfl, rfl, rfl, ?_, ?_⟩
  · intro i hi
    have hcases : i = 0 ∨ i = 1 ∨ i = 2 ∨ i = 3 ∨ i = 4 ∨ i = 5 := by omega
    rcases hcases with rfl | rfl | rfl | rfl | rfl | rfl <;>
      norm_num [GLVertexBuffer.texCoord, GLVertexBuffer.vertex, quad, vertices, texCoords]
  · rintro ⟨x, y⟩
    obtain ⟨h0, h1, h2, h3, h4, h5⟩ := quad_vertices
    simp only [h0, h1, h2, h3, h4, h5, inTriangle, edgeFunction]
    constructor
    · rintro ⟨hx1, hx2, hy1, hy2⟩
      rcases le_total (x + y) 0 with hs | hs
      · exact Or.inl (Or.inl ⟨by linarith, by linarith, by linarith⟩)
      · exact Or.inr (Or.inl ⟨by linarith, by linarith, by linarith⟩)
    · rintro ((⟨a, b, c⟩ | ⟨a, b, c⟩) | (⟨a, b, c⟩ | ⟨a, b, c⟩)) <;>
        exact ⟨by linarith, by linarith, by linarith, by linarith⟩

/-! ## Swap chain: construction and context binding -/

namespace GbmSurface

/-- C22 (as stated) fails: a surface whose GBM surface could not be created is not valid,
yet when the driver accepts `eglMakeCurrent` with `EGL_NO_SURFACE` (a surfaceless
context), `makeContextCurrent` returns true. -/
theorem makeContextCurrent_invalid_surface_true :
    isValid (constructWithFlags ⟨true⟩ (1920, 1080) 875713112 0 3 ⟨none, none⟩
      ⟨[], 10⟩).surface = false ∧
    (makeContextCurrent (constructWithFlags ⟨true⟩ (1920, 1080) 875713112 0 3 ⟨none, none⟩
      ⟨[], 10⟩).surface ⟨true, true⟩).ret = true := by
  decide

/-- C22 (amended): for every constructed surface that is not valid, `makeContextCurrent`
calls `eglMakeCurrent` with `EGL_NO_SURFACE` as draw and read surface, and it returns
false exactly when that call fails. -/
theorem makeContextCurrent_invalid (backend : EglGbmBackend) (size : Int × Int)
    (format : Nat) (modifiers : List Nat) (surface eglSurface : Option Nat)
    (journal : DamageJournal) (d : MakeCurrentDriver)
    (h : isValid (construct backend size format modifiers surface eglSurface journal)
      = false) :
    (makeContextCurrent (construct backend size format modifiers surface eglSurface journal)
      d).calls.head? = some (DriverCall.eglMakeCurrent none none) ∧
    ((makeContextCurrent (construct backend size format modifiers surface eglSurface journal)
      d).ret = false ↔ d.eglMakeCurrent = false) := by
  have hegl : (construct backend size format modifiers surface eglSurface journal).m_eglSurface
      = none := by
    cases surface with
    | none => rfl
    | some g =>
      cases eglSurface with
      | none => rfl
      | some e => simp [isValid, construct] at h
  constructor
  · cases hm : d.eglMakeCurrent <;> cases hg : d.isGLES <;>
      simp [makeContextCurrent, hm, hg, hegl]
  · cases hm : d.eglMakeCurrent <;> cases hg : d.isGLES <;>
      simp [makeContextCurrent, hm, hg]

/-- C22 (amended), at a concrete input: the EGL surface of a surface could not be
created and the driver refuses to bind it. -/
theorem makeContextCurrent_invalid_witness :
    isValid (construct ⟨true⟩ (1920, 1080) 875713112 [] (some 1) none ⟨[], 10⟩) = false ∧
    (makeContextCurrent (construct ⟨true⟩ (1920, 1080) 875713112 [] (some 1) none ⟨[], 10⟩)
      ⟨false, false⟩).ret = false := by
  have h := makeContextCurrent_invalid ⟨true⟩ (1920, 1080) 875713112 [] (some 1) none
    ⟨[], 10⟩ ⟨false, false⟩ (by decide)
  exact ⟨by decide, h.2.mpr rfl⟩

/-- C23: for both constructors the surface is valid exactly when the allocator returned a
GBM surface and `eglCreatePlatformWindowSurfaceEXT` returned an EGL surface; when the
allocator returns null the only driver call is the allocation; and in every case
`size`, `format` and `modifiers` return what was requested (no modifiers for the
constructor taking flags). -/
theorem construct_isValid (backend : EglGbmBackend) (sz : Int × Int) (fmt flags : Nat)
    (mods : List Nat) (config : Nat) (d : CreateDriver) (journal : DamageJournal) :
    ((isValid (constructWithFlags backend sz fmt flags config d journal).surface = true ↔
        (d.gbmSurface ≠ none ∧ d.eglSurface ≠ none)) ∧
      (d.gbmSurface = none →
        (constructWithFlags backend sz fmt flags config d journal).calls
          = [DriverCall.gbm_surface_create sz.1 sz.2 fmt flags]) ∧
      size (constructWithFlags backend sz fmt flags config d journal).surface = sz ∧
      format (constructWithFlags backend sz fmt flags config d journal).surface = fmt ∧
      modifiers (constructWithFlags backend sz fmt flags config d journal).surface = []) ∧
    ((isValid (constructWithModifiers backend sz fmt mods config d journal).surface = true ↔
        (d.gbmSurface ≠ none ∧ d.eglSurface ≠ none)) ∧
      (d.gbmSurface = none →
        (constructWithModifiers backend sz fmt mods config d journal).calls
          = [DriverCall.gbm_surface_create_with_modifiers sz.1 sz.2 fmt
              (if mods.isEmpty then none else some mods) mods.length]) ∧
      size (constructWithModifiers backend sz fmt mods config d journal).surface = sz ∧
      format (constructWithModifiers backend sz fmt mods config d journal).surface = fmt ∧
      modifiers (constructWithModifiers backend sz fmt mods config d journal).surface
        = mods) := by
  cases hg : d.gbmSurface <;> cases he : d.eglSurface <;>
    simp [constructWithFlags, constructWithModifiers, construct, isValid, size, format,
      modifiers, hg, he]

/-- C23, at concrete inputs: a rejected allocation, and an allocation followed by a
successful EGL surface creation. -/
theorem construct_isValid_witness :
    (isValid (constructWithFlags ⟨true⟩ (1920, 1080) 875713112 0 3 ⟨none, some 2⟩
        ⟨[], 10⟩).surface = false ∧
      (constructWithFlags ⟨true⟩ (1920, 1080) 875713112 0 3 ⟨none, some 2⟩ ⟨[], 10⟩).calls
        = [DriverCall.gbm_surface_create 1920 1080 875713112 0]) ∧
    (isValid (constructWithModifiers ⟨true⟩ (1920, 1080) 875713112 [5, 6] 3 ⟨some 1, some 2⟩
        ⟨[], 10⟩).surface = true ∧
      modifiers (constructWithModifiers ⟨true⟩ (1920, 1080) 875713112 [5, 6] 3
        ⟨some 1, some 2⟩ ⟨[], 10⟩).surface = [5, 6]) := by
  have h1 := (construct_isValid ⟨true⟩ (1920, 1080) 875713112 0 [] 3 ⟨none, some 2⟩
    ⟨[], 10⟩).1
  have h2 := (construct_isValid ⟨true⟩ (1920, 1080) 875713112 0 [5, 6] 3 ⟨some 1, some 2⟩
    ⟨[], 10⟩).2
  exact ⟨⟨by decide, h1.2.1 rfl⟩, h2.1.mpr (by decide), h2.2.2.2.2⟩

/-- C24: `makeContextCurrent` returns true exactly when `eglMakeCurrent` succeeds; it calls
`glDrawBuffer(GL_BACK)` exactly when `eglMakeCurrent` succeeds and the platform is not
OpenGL ES, and it calls `glDrawBuffer` with no other argument; the surface is unchanged. -/
theorem makeContextCurrent_spec (s : GbmSurface) (d : MakeCurrentDriver) :
    (makeContextCurrent s d).ret = d.eglMakeCurrent ∧
    (DriverCall.glDrawBuffer GL_BACK ∈ (makeContextCurrent s d).calls ↔
      (d.eglMakeCurrent = true ∧ d.isGLES = false)) ∧
    (∀ buffer : Nat, DriverCall.glDrawBuffer buffer ∈ (makeContextCurrent s d).calls →
      buffer = GL_BACK) ∧
    (d.eglMakeCurrent = false →
      (makeContextCurrent s d).calls
        = [DriverCall.eglMakeCurrent s.m_eglSurface s.m_eglSurface]) ∧
    (makeContextCurrent s d).surface = s := by
  cases hm : d.eglMakeCurrent <;> cases hg : d.isGLES <;>
    simp [makeContextCurrent, hm, hg]

/-- C24, at a concrete input: a failing `eglMakeCurrent` on a desktop GL platform. -/
theorem makeContextCurrent_spec_witness :
    (makeContextCurrent freshSurface ⟨false, false⟩).ret = false ∧
    (makeContextCurrent freshSurface ⟨false, false⟩).calls
      = [DriverCall.eglMakeCurrent (some 2) (some 2)] ∧
    (makeContextCurrent freshSurface ⟨true, false⟩).calls
      = [DriverCall.eglMakeCurrent (some 2) (some 2), DriverCall.glDrawBuffer GL_BACK] := by
  have h := makeContextCurrent_spec freshSurface ⟨false, false⟩
  exact ⟨h.1, (h.2.2.2.1 rfl).trans (by decide), by decide⟩

/-- C25: when the locked buffer has a non-zero framebuffer id, or the driver grants no
front buffer, `swapBuffersForDrm` and `swapBuffers` leave the same locked buffers, current
buffer, buffer age and damage journal, make the same driver calls and return a buffer in
the same cases (the same buffer); the surfaces they leave differ at most in
`m_currentDrmBuffer`, which `swapBuffers` never touches and `swapBuffersForDrm` sets to
the buffer it returns. -/
theorem swapBuffersForDrm_refines_swapBuffers (s : GbmSurface) (dirty : Region)
    (d : SwapDriver) (h : d.bufferId ≠ 0 ∨ d.acquired = none) :
    (s.swapBuffersForDrm dirty d).surface.m_lockedBuffers
      = (s.swapBuffers dirty d).surface.m_lockedBuffers ∧
    currentBuffer (s.swapBuffersForDrm dirty d).surface
      = currentBuffer (s.swapBuffers dirty d).surface ∧
    bufferAge (s.swapBuffersForDrm dirty d).surface
      = bufferAge (s.swapBuffers dirty d).surface ∧
    (s.swapBuffersForDrm dirty d).surface.m_damageJournal
      = (s.swapBuffers dirty d).surface.m_damageJournal ∧
    (s.swapBuffersForDrm dirty d).calls = (s.swapBuffers dirty d).calls ∧
    ((s.swapBuffersForDrm dirty d).ret = none ↔ (s.swapBuffers dirty d).ret = none) ∧
    (s.swapBuffersForDrm dirty d).ret.map DrmGbmBuffer.toGbmBuffer
      = (s.swapBuffers dirty d).ret ∧
    (s.swapBuffersForDrm dirty d).surface
      = { (s.swapBuffers dirty d).surface with
          m_currentDrmBuffer := currentDrmBuffer (s.swapBuffersForDrm dirty d).surface } ∧
    currentDrmBuffer (s.swapBuffers dirty d).surface = currentDrmBuffer s ∧
    currentDrmBuffer (s.swapBuffersForDrm dirty d).surface
      = (match (s.swapBuffersForDrm dirty d).ret with
         | some buffer => some buffer
         | none => currentDrmBuffer s) := by
  cases hswap : d.eglSwapBuffers
  · simp [swapBuffers, swapBuffersForDrm, currentBuffer, currentDrmBuffer, bufferAge, hswap]
  · cases hlock : d.lockFrontBuffer with
    | none =>
      simp [swapBuffers, swapBuffersForDrm, currentBuffer, currentDrmBuffer, bufferAge,
        hswap, hlock]
    | some bo =>
      have hid : d.bufferId ≠ 0 := by
        rcases h with h | h
        · exact h
        · simp [SwapDriver.acquired, hswap, hlock] at h
      cases hage : s.m_eglBackend.supportsBufferAge <;>
        simp [swapBuffers, swapBuffersForDrm, currentBuffer, currentDrmBuffer, bufferAge,
          hswap, hlock, hage, hid]

/-- C25, at a concrete input: a successful swap on a fresh surface. -/
theorem swapBuffersForDrm_refines_swapBuffers_witness :
    (driverOk.bufferId ≠ 0 ∨ driverOk.acquired = none) ∧
    (freshSurface.swapBuffersForDrm (pixel 3 4) driverOk).surface.m_lockedBuffers
      = (freshSurface.swapBuffers (pixel 3 4) driverOk).surface.m_lockedBuffers ∧
    (freshSurface.swapBuffersForDrm (pixel 3 4) driverOk).surface.m_damageJournal
      = (freshSurface.swapBuffers (pixel 3 4) driverOk).surface.m_damageJournal ∧
    (freshSurface.swapBuffers (pixel 3 4) driverOk).ret = some ⟨100, 7⟩ := by
  have h := swapBuffersForDrm_refines_swapBuffers freshSurface (pixel 3 4) driverOk
    (Or.inl (by decide))
  exact ⟨Or.inl (by decide), h.1, h.2.2.2.1, by decide⟩

end GbmSurface

/-! ## Hwcomposer backend -/

namespace EglHwcomposerBackend

/-- C26: after any sequence of `endFrame` calls on any backend state, `beginFrame` returns
the geometry of the screens, whatever regions the calls recorded. -/
theorem beginFrame_full (b : EglHwcomposerBackend) (frames : List Frame)
    (screensGeometry : Region) :
    beginFrame (b.endFrames frames) screensGeometry = screensGeometry := by
  simp [beginFrame, DamageJournal.accumulate]

/-- C27: every `endFrame` call adds exactly the rendered region to the damage journal,
whatever the damaged region is and whether or not the driver swap succeeded; with the
journal as specified the rendered region is then the newest entry. -/
theorem endFrame_adds_rendered (b : EglHwcomposerBackend)
    (renderedRegion damagedRegion : Region) (eglSwapBuffers : Bool) :
    (endFrame b renderedRegion damagedRegion eglSwapBuffers).m_damageJournal
      = b.m_damageJournal.add renderedRegion ∧
    (∀ (otherDamaged : Region) (otherSwap : Bool),
      endFrame b renderedRegion otherDamaged otherSwap
        = endFrame b renderedRegion damagedRegion eglSwapBuffers) ∧
    (endFrame b renderedRegion damagedRegion eglSwapBuffers).m_damageJournal.log.head?
      = some renderedRegion := by
  simp [endFrame, DamageJournal.add]

end EglHwcomposerBackend

/-! ## Mapping between logical and native X11 coordinates -/

/-- Truncating an integer changes nothing. -/
theorem truncate_intCast (z : Int) : truncate (z : Rat) = z := by
  unfold truncate
  split_ifs
  · exact Int.floor_intCast z
  · exact Int.ceil_intCast z

/-- Truncating the quotient of an integer by a positive integer is the integer division
that rounds toward zero. -/
theorem truncate_div (w : Int) (n : Nat) (hn : 0 < n) :
    truncate ((w : Rat) / (n : Rat)) = w.tdiv n := by
  have hnq : (0 : Rat) < (n : Rat) := by exact_mod_cast hn
  unfold truncate
  rcases le_or_lt 0 w with hw | hw
  · have hq : (0 : Rat) ≤ (w : Rat) / (n : Rat) :=
      div_nonneg (by exact_mod_cast hw) hnq.le
    rw [if_pos hq, Rat.floor_intCast_div_natCast]
    exact (Int.tdiv_eq_ediv hw (Int.ofNat_nonneg n)).symm
  · have hq : ¬ (0 : Rat) ≤ (w : Rat) / (n : Rat) := by
      have : (w : Rat) / (n : Rat) < 0 := div_neg_of_neg_of_pos (by exact_mod_cast hw) hnq
      exact not_le.mpr this
    rw [if_neg hq]
    have hceil : ⌈(w : Rat) / (n : Rat)⌉ = -⌊((-w : Int) : Rat) / (n : Rat)⌋ := by
      rw [← Int.ceil_neg]
      congr 1
      push_cast
      ring
    rw [hceil, Rat.floor_intCast_div_natCast,
      ← Int.tdiv_eq_ediv (by omega : (0 : Int) ≤ -w) (Int.ofNat_nonneg n), Int.neg_tdiv,
      neg_neg]

/-- The conversion to `int` of the product of an integer and an integer scale. -/
theorem toInt_mul (v : Int) (n : Nat) :
    toInt ((v : Rat) * (n : Rat))
      = if INT_MIN ≤ v * n ∧ v * n ≤ INT_MAX then some (v * n) else none := by
  have h : (v : Rat) * (n : Rat) = ((v * n : Int) : Rat) := by push_cast; ring
  rw [h]
  unfold toInt
  rw [truncate_intCast]

/-- The conversion to `int` of the quotient of an integer by a positive integer scale. -/
theorem toInt_div (w : Int) (n : Nat) (hn : 0 < n) (hlo : INT_MIN ≤ w) (hhi : w ≤ INT_MAX) :
    toInt ((w : Rat) / (n : Rat)) = some (w.tdiv n) := by
  unfold toInt
  rw [truncate_div w n hn]
  have hn1 : (0 : Int) < (n : Int) := by exact_mod_cast hn
  have hb : INT_MIN ≤ w.tdiv n ∧ w.tdiv n ≤ INT_MAX := by
    unfold INT_MIN INT_MAX at *
    rcases le_or_lt 0 w with hw | hw
    · rw [Int.tdiv_eq_ediv hw hn1.le]
      have h1 : 0 ≤ w / (n : Int) := Int.ediv_nonneg hw hn1.le
      have h2 : w / (n : Int) ≤ w := Int.ediv_le_self _ hw
      omega
    · have hneg : (0 : Int) ≤ -w := by omega
      have h0 : w.tdiv n = -((-w).tdiv n) := by rw [Int.neg_tdiv, neg_neg]
      rw [h0, Int.tdiv_eq_ediv hneg hn1.le]
      have h1 : 0 ≤ (-w) / (n : Int) := Int.ediv_nonneg hneg hn1.le
      have h2 : (-w) / (n : Int) ≤ -w := Int.ediv_le_self _ hneg
      omega
  rw [if_pos hb]

/-- A coordinate whose product with a positive scale fits in `int` fits in `int`. -/
theorem fitsInt_self (v : Int) (n : Nat) (hn : 0 < n) (h : fitsInt v n) :
    INT_MIN ≤ v ∧ v ≤ INT_MAX := by
  unfold fitsInt INT_MIN INT_MAX at *
  have hn1 : (1 : Int) ≤ (n : Int) := by exact_mod_cast hn
  rcases le_or_lt 0 v with hv | hv
  · have : v ≤ v * n := le_mul_of_one_le_right hv hn1
    omega
  · have : v * n ≤ v := by nlinarith
    omega

/-- A coordinate scaled up and down again. -/
theorem toInt_mul_div (v : Int) (n : Nat) (hn : 0 < n) (h : fitsInt v n) :
    toInt ((v : Rat) * (n : Rat)) = some (v * n) ∧
    toInt (((v * n : Int) : Rat) / (n : Rat)) = some v := by
  constructor
  · have h2 : INT_MIN ≤ v * n ∧ v * n ≤ INT_MAX := h
    rw [toInt_mul, if_pos h2]
  · have hnq : (n : Rat) ≠ 0 := by exact_mod_cast hn.ne.symm
    have hq : ((v * n : Int) : Rat) / (n : Rat) = (v : Rat) := by
      push_cast
      field_simp
    have hv := fitsInt_self v n hn h
    rw [hq]
    unfold toInt
    rw [truncate_intCast, if_pos hv]

/-- C28 (as stated) fails: with scale 2 the point (1073741824, 0) has no native
counterpart, because 2147483648 is not representable as `int`; mapping it to native
coordinates and back does not give the point. -/
theorem mapToNative_overflow :
    QPoint.mapToNative ((2 : Nat) : Rat) ⟨1073741824, 0⟩ = none ∧
    (QPoint.mapToNative ((2 : Nat) : Rat) ⟨1073741824, 0⟩).bind
      (QPoint.mapFromNative ((2 : Nat) : Rat)) ≠ some ⟨1073741824, 0⟩ := by
  have h : QPoint.mapToNative ((2 : Nat) : Rat) ⟨1073741824, 0⟩ = none := by
    unfold QPoint.mapToNative
    rw [toInt_mul, toInt_mul]
    decide
  rw [h]
  exact ⟨rfl, by simp⟩

/-- C28 (amended): for every positive integer scale and every rectangle, with any top-left
point and any size, whose coordinates multiplied by the scale are representable as `int`:
`mapToNative` multiplies every coordinate by the scale, `mapFromNative` applied to the
result gives back the point, the size and the rectangle, and a rectangle is mapped by
mapping its top-left point and its size independently.  `mapFromNative` divides every
coordinate of any point or size by the scale, rounding toward zero. -/
theorem mapFromNative_mapToNative (scale : Nat) (hscale : 0 < scale) (rect : QRect)
    (hx : fitsInt rect.topLeft.x scale) (hy : fitsInt rect.topLeft.y scale)
    (hw : fitsInt rect.size.width scale) (hh : fitsInt rect.size.height scale) :
    (rect.topLeft.mapToNative scale
        = some ⟨rect.topLeft.x * scale, rect.topLeft.y * scale⟩ ∧
      (rect.topLeft.mapToNative scale).bind (QPoint.mapFromNative scale)
        = some rect.topLeft) ∧
    (rect.size.mapToNative scale
        = some ⟨rect.size.width * scale, rect.size.height * scale⟩ ∧
      (rect.size.mapToNative scale).bind (QSize.mapFromNative scale) = some rect.size) ∧
    (rect.mapToNative scale
        = some ⟨⟨rect.topLeft.x * scale, rect.topLeft.y * scale⟩,
                ⟨rect.size.width * scale, rect.size.height * scale⟩⟩ ∧
      (rect.mapToNative scale).bind (QRect.mapFromNative scale) = some rect) ∧
    (∀ q : QPoint, INT_MIN ≤ q.x → q.x ≤ INT_MAX → INT_MIN ≤ q.y → q.y ≤ INT_MAX →
      q.mapFromNative scale = some ⟨q.x.tdiv scale, q.y.tdiv scale⟩) ∧
    (∀ q : QSize, INT_MIN ≤ q.width → q.width ≤ INT_MAX → INT_MIN ≤ q.height →
      q.height ≤ INT_MAX →
      q.mapFromNative scale = some ⟨q.width.tdiv scale, q.height.tdiv scale⟩) := by
  obtain ⟨⟨x, y⟩, ⟨w, h⟩⟩ := rect
  simp only at hx hy hw hh
  have hp : QPoint.mapToNative scale ⟨x, y⟩ = some ⟨x * scale, y * scale⟩ := by
    simp only [QPoint.mapToNative, (toInt_mul_div x scale hscale hx).1,
      (toInt_mul_div y scale hscale hy).1]
  have hs : QSize.mapToNative scale ⟨w, h⟩ = some ⟨w * scale, h * scale⟩ := by
    simp only [QSize.mapToNative, (toInt_mul_div w scale hscale hw).1,
      (toInt_mul_div h scale hscale hh).1]
  have hpb : QPoint.mapFromNative scale ⟨x * scale, y * scale⟩ = some ⟨x, y⟩ := by
    simp only [QPoint.mapFromNative, (toInt_mul_div x scale hscale hx).2,
      (toInt_mul_div y scale hscale hy).2]
  have hsb : QSize.mapFromNative scale ⟨w * scale, h * scale⟩ = some ⟨w, h⟩ := by
    simp only [QSize.mapFromNative, (toInt_mul_div w scale hscale hw).2,
      (toInt_mul_div h scale hscale hh).2]
  have hr : QRect.mapToNative scale ⟨⟨x, y⟩, ⟨w, h⟩⟩
      = some ⟨⟨x * scale, y * scale⟩, ⟨w * scale, h * scale⟩⟩ := by
    unfold QRect.mapToNative
    dsimp only
    rw [hp, hs]
  have hrb : QRect.mapFromNative scale ⟨⟨x * scale, y * scale⟩, ⟨w * scale, h * scale⟩⟩
      = some ⟨⟨x, y⟩, ⟨w, h⟩⟩ := by
    unfold QRect.mapFromNative
    dsimp only
    rw [hpb, hsb]
  refine ⟨⟨hp, ?_⟩, ⟨hs, ?_⟩, ⟨hr, ?_⟩, ?_, ?_⟩
  · rw [hp]; exact hpb
  · rw [hs]; exact hsb
  · rw [hr]; exact hrb
  · intro q hx1 hx2 hy1 hy2
    simp only [QPoint.mapFromNative, toInt_div q.x scale hscale hx1 hx2,
      toInt_div q.y scale hscale hy1 hy2]
  · intro q hx1 hx2 hy1 hy2
    simp only [QSize.mapFromNative, toInt_div q.width scale hscale hx1 hx2,
      toInt_div q.height scale hscale hy1 hy2]

/-- C28 (amended), at a concrete input: scale 2 and the rectangle at (3, -4) of size
7 x 5. -/
theorem mapFromNative_mapToNative_witness :
    (0 < 2 ∧ fitsInt 3 2 ∧ fitsInt (-4) 2 ∧ fitsInt 7 2 ∧ fitsInt 5 2) ∧
    QRect.mapToNative ((2 : Nat) : Rat) ⟨⟨3, -4⟩, ⟨7, 5⟩⟩ = some ⟨⟨6, -8⟩, ⟨14, 10⟩⟩ ∧
    (QRect.mapToNative ((2 : Nat) : Rat) ⟨⟨3, -4⟩, ⟨7, 5⟩⟩).bind
      (QRect.mapFromNative ((2 : Nat) : Rat)) = some ⟨⟨3, -4⟩, ⟨7, 5⟩⟩ := by
  have h := mapFromNative_mapToNative 2 (by decide) ⟨⟨3, -4⟩, ⟨7, 5⟩⟩ (by decide) (by decide)
    (by decide) (by decide)
  exact ⟨by decide, h.2.2.1.1, h.2.2.1.2⟩

/-! ## Window grabs of a scripted effect -/

namespace ScriptedEffect

/-- C29: `grab` returns false exactly when the role holds a grabber other than this effect
and `force` is false, and then the window is unchanged; otherwise it returns true, the
grabber of the role is this effect afterwards (the other roles are untouched), so
`isGrabbed` is false, and `ungrab` returns true and clears the role. -/
theorem grab_spec (effect : Nat) (w : EffectWindow) (grabRole : Nat) (force : Bool) :
    ((grab effect w grabRole force).1 = false ↔
      ((∃ g, w.data grabRole = some g ∧ g ≠ effect) ∧ force = false)) ∧
    ((grab effect w grabRole force).1 = false → (grab effect w grabRole force).2 = w) ∧
    ((grab effect w grabRole force).1 = true →
      (grab effect w grabRole force).2.data grabRole = some effect ∧
      (∀ role : Nat, role ≠ grabRole →
        (grab effect w grabRole force).2.data role = w.data role) ∧
      isGrabbed effect (grab effect w grabRole force).2 grabRole = false ∧
      (ungrab effect (grab effect w grabRole force).2 grabRole).1 = true ∧
      (ungrab effect (grab effect w grabRole force).2 grabRole).2.data grabRole = none) := by
  cases hd : w.data grabRole with
  | none =>
    simp [grab, ungrab, isGrabbed, EffectWindow.setData, hd]
    intro role hrole
    simp [hrole]
  | some g =>
    by_cases hg : g = effect
    · subst hg
      simp [grab, ungrab, isGrabbed, EffectWindow.setData, hd]
    · cases force
      · simp [grab, hd, hg]
      · simp [grab, ungrab, isGrabbed, EffectWindow.setData, hd, hg]
        intro role hrole
        simp [hrole]

/-- C29, at concrete inputs: role 3 of a window is grabbed by the effect at address 77;
the effect at address 42 grabs it without and with force. -/
theorem grab_spec_witness :
    (grab 42 ⟨fun r => if r = 3 then some 77 else none⟩ 3 false).1 = false ∧
    (grab 42 ⟨fun r => if r = 3 then some 77 else none⟩ 3 true).1 = true ∧
    (grab 42 ⟨fun r => if r = 3 then some 77 else none⟩ 3 true).2.data 3 = some 42 ∧
    (ungrab 42 (grab 42 ⟨fun r => if r = 3 then some 77 else none⟩ 3 true).2 3).1 = true := by
  have h1 := (grab_spec 42 ⟨fun r => if r = 3 then some 77 else none⟩ 3 false).1
  have h2 := (grab_spec 42 ⟨fun r => if r = 3 then some 77 else none⟩ 3 true).2.2 (by decide)
  exact ⟨h1.mpr ⟨⟨77, by decide, by decide⟩, rfl⟩, by decide, h2.1, h2.2.2.2.1⟩

end ScriptedEffect

/-! ## Animations of a scripted effect -/

namespace ScriptedEffect

/-- The loop over the elements of `animations` only appends to the settings, and the
only errors it throws are a missing type and a missing duration. -/
theorem collectAnimations_spec (global : AnimationSettings)
    (items : List (Option OptionsObject)) (acc : List AnimationSettings) :
    (∀ settings, collectAnimations global items acc = .ok settings →
      acc.length ≤ settings.length) ∧
    collectAnimations global items acc ≠ .error .noAnimations := by
  induction items generalizing acc with
  | nil =>
    refine ⟨fun settings h => ?_, by simp [collectAnimations]⟩
    simp only [collectAnimations, Except.ok.injEq] at h
    rw [h]
  | cons item rest ih =>
    cases item with
    | none =>
      simp only [collectAnimations]
      exact ih acc
    | some value =>
      rw [collectAnimations]
      by_cases h1 : ((animationSettingsFromObject value).set ||| global.set)
          &&& AnimationSettings.Type_ = 0
      · rw [if_pos h1]
        exact ⟨fun settings h => by simp at h, by simp⟩
      · rw [if_neg h1]
        by_cases h2 : ((animationSettingsFromObject value).set ||| global.set)
            &&& AnimationSettings.Duration = 0
        · rw [if_pos h2]
          exact ⟨fun settings h => by simp at h, by simp⟩
        · rw [if_neg h2]
          refine ⟨fun settings h => ?_, (ih _).2⟩
          have hlen := (ih _).1 settings h
          simp only [List.length_append, List.length_singleton] at hlen
          omega

/-- With at least one setting the end of `animate_helper` never reports that no
animations were provided. -/
theorem startAnimations_ne_noAnimations (animationType : AnimationType) (window : Nat)
    (settings : List AnimationSettings) (global : AnimationSettings)
    (h : 1 ≤ settings.length) :
    startAnimations animationType window settings global ≠ .error .noAnimations := by
  unfold startAnimations
  cases settings with
  | nil => simp at h
  | cons a t =>
    cases t with
    | nil =>
      simp only [List.length_singleton, if_true]
      split_ifs <;> simp
    | cons b u =>
      have h1 : ¬ (a :: b :: u).length = 1 := by simp
      simp only [if_neg h1]
      split_ifs <;> simp

/-- C30: `animate_helper` never throws "No animations provided", the settings are never
empty at the emptiness check.  But for the options
`{ window: w, type: 1, animations: [ { duration: 100 } ] }` it throws nothing and starts
two animations: the global settings, whose duration was set nowhere (it is started with
duration 0), and the listed animation, whose type was not taken over from the global
settings (it is started with type -1). -/
theorem animate_helper_starts_incomplete :
    (∀ (object : AnimationOptions) (animationType : AnimationType),
      animate_helper object animationType ≠ .error .noAnimations) ∧
    animate_helper typeGlobalDurationLocal .Animate
      = .ok [⟨.Animate, 5, ⟨1, 0, .undefined, .undefined, 0, 0, 1, [], false, true⟩⟩,
             ⟨.Animate, 5, ⟨-1, 0, .undefined, .undefined, 0, 100, 8, [], false, true⟩⟩] ∧
    StartedAnimation.hasTypeAndDuration
      ⟨.Animate, 5, ⟨1, 0, .undefined, .undefined, 0, 0, 1, [], false, true⟩⟩ = false ∧
    StartedAnimation.hasTypeAndDuration
      ⟨.Animate, 5, ⟨-1, 0, .undefined, .undefined, 0, 100, 8, [], false, true⟩⟩ = false := by
  refine ⟨fun object animationType => ?_, rfl, by decide, by decide⟩
  unfold animate_helper
  cases object.window with
  | notObject => simp
  | invalid => simp
  | window window =>
    cases object.animations with
    | undefined =>
      exact startAnimations_ne_noAnimations _ _ _ _ (by simp)
    | notArray => simp
    | array items =>
      simp only
      have hspec := collectAnimations_spec (animationSettingsFromObject object.object) items
        [animationSettingsFromObject object.object]
      cases hc : collectAnimations (animationSettingsFromObject object.object) items
          [animationSettingsFromObject object.object] with
      | error e =>
        simp only
        intro he
        rw [Except.error.injEq] at he
        exact hspec.2 (by rw [hc, he])
      | ok settings =>
        exact startAnimations_ne_noAnimations _ _ _ _ (by simpa using hspec.1 settings hc)

end ScriptedEffect

end KWin
